import Mathlib

/-!
# Verification of the TerriaJS catalog-model subsystem

Shallow embedding of `lib/Models/ArcGisPortalItemReference.ts`,
`lib/Models/SdmxJson/SdmxJsonDataflowStratum.ts` and
`lib/Models/Catalog/Esri/ArcGisImageServerCatalogItem.ts`, together with
proofs of the behavioural claims about format matching, reference
resolution, SDMX dimension/column synthesis and stratum duplication.

JavaScript conventions are embedded explicitly:
* `string | undefined` becomes `Option String`;
* JS string truthiness (`""` and `undefined` are falsy) is `jsTruthy`;
* a JS `RegExp` restricted to the constructs the source actually uses
  (literal characters, `\d`, `\/`, a final `$` anchor, top-level `|`,
  the `"i"` flag) is compiled to a list of simple patterns;
* a fallible async function is `Except Unit _`; a swallowed failure
  (try/catch returning `undefined`) is `Option`.
-/

/-- JS string truthiness: `undefined` and `""` are falsy. -/
def jsTruthy : Option String → Bool
  | none => false
  | some s => s ≠ ""

/-- `a ?? b` on optional values (JS nullish coalescing). -/
def jsCoalesce {α : Type} : Option α → Option α → Option α
  | some a, _ => some a
  | none, b => b

/-- One element of a compiled regex: a literal character or the `\d` class. -/
inductive PatElem
  | lit (c : Char)
  | digitClass
deriving DecidableEq, Repr

/-- One alternation branch of a compiled regex: a sequence of elements,
optionally anchored at the end of the input by `$`. -/
structure SimplePat where
  elems : List PatElem
  anchoredEnd : Bool
deriving DecidableEq, Repr

/-- A compiled JS regex (with the `"i"` flag) in the fragment used by
`ArcGisPortalItemReference.defaultSupportedFormats`: an alternation of
simple branches. -/
def JsRegexI := List SimplePat
deriving instance DecidableEq, Repr for JsRegexI

/-- Case-insensitive match of one element against one character. -/
def PatElem.matchesChar : PatElem → Char → Bool
  | .lit c, a => c.toLower == a.toLower
  | .digitClass, a => a.isDigit

/-- Match a sequence of elements at the start of `cs`; with `anchored`
the remainder must be empty (a final `$`). -/
def matchElemsHere : List PatElem → Bool → List Char → Bool
  | [], anchored, cs => !anchored || cs.isEmpty
  | _ :: _, _, [] => false
  | e :: es, anchored, c :: cs =>
    e.matchesChar c && matchElemsHere es anchored cs

/-- Unanchored search: a branch matches if it matches at some position
(JS `RegExp.prototype.test` semantics). -/
def matchBranch (p : SimplePat) : List Char → Bool
  | [] => matchElemsHere p.elems p.anchoredEnd []
  | c :: cs =>
    matchElemsHere p.elems p.anchoredEnd (c :: cs) || matchBranch p cs

/-- `regex.test(s)` for the compiled regex. -/
def JsRegexI.test (r : JsRegexI) (s : String) : Bool :=
  r.any fun p => matchBranch p s.data

/-- Compile one alternation branch of a pattern string: `\d` is the digit
class, `\/` the literal `/`, a final `$` anchors the end. -/
def compileBranch (cs : List Char) : SimplePat :=
  match cs with
  | [] => { elems := [], anchoredEnd := false }
  | ['$'] => { elems := [], anchoredEnd := true }
  | '\\' :: 'd' :: rest =>
    let r := compileBranch rest
    { r with elems := PatElem.digitClass :: r.elems }
  | '\\' :: c :: rest =>
    let r := compileBranch rest
    { r with elems := PatElem.lit c :: r.elems }
  | c :: rest =>
    let r := compileBranch rest
    { r with elems := PatElem.lit c :: r.elems }

/-- Split a character list on `|` (the alternation separator). -/
def splitAlternation : List Char → List (List Char)
  | [] => [[]]
  | '|' :: rest => [] :: splitAlternation rest
  | c :: rest =>
    match splitAlternation rest with
    | [] => [[c]]
    | b :: bs => (c :: b) :: bs

/-- `new RegExp(pattern, "i")` for the pattern fragment used by the
default supported formats: split on top-level `|`, compile each branch. -/
def compileRegexI (pattern : String) : JsRegexI :=
  (splitAlternation pattern.data).map compileBranch

/-- An ArcGIS portal item (the fields of `ArcGisItem` the reference
resolution reads): `lib/Models/ArcGisPortalDefinitions.ts`. -/
structure ArcGisItem where
  id : String
  itemType : String
  url : String
  typeKeywords : List String := []
  title : String := ""
  description : String := ""
  licenseInfo : Option String := none
  extent : Option ((Int × Int) × (Int × Int)) := none
deriving DecidableEq, Repr

/-- The `definition` object of a format rule (only its `type` member is
read by `forceLoadReference`). -/
structure FormatDefinition where
  defType : Option String
deriving DecidableEq, Repr

/-- `ArcGisPortalItemFormatTraits`: raw (string-pattern) format rule. -/
structure ArcGisPortalItemFormatTraits where
  id : Option String
  formatRegex : Option String
  urlRegex : Option String
  definition : FormatDefinition
deriving DecidableEq, Repr

/-- `PreparedSupportedFormat` from `ArcGisPortalItemReference.ts`: the
compiled form of a rule.  Note the source drops the rule `id` here. -/
structure PreparedSupportedFormat where
  formatRegex : Option JsRegexI
  urlRegex : Option JsRegexI
  definition : FormatDefinition
deriving DecidableEq, Repr

namespace ArcGisPortalItemReference

/-- `defaultSupportedFormats` (the commented-out WFS entry is absent in
the source's live list). -/
def defaultSupportedFormats : List ArcGisPortalItemFormatTraits :=
  [ { id := some "I3S", formatRegex := some "Scene Service",
      urlRegex := some "SceneServer$|SceneServer/$",
      definition := { defType := some "3d-tiles" } },
    { id := some "WMS", formatRegex := some "WMS",
      urlRegex := some "WMSServer",
      definition := { defType := some "wms" } },
    { id := some "ArcGIS MapServer Group", formatRegex := some "Map Service",
      urlRegex := some "MapServer$|MapServer/$",
      definition := { defType := some "esri-mapServer-group" } },
    { id := some "ArcGIS MapServer", formatRegex := some "Map Service",
      urlRegex := some "MapServer\\/\\d",
      definition := { defType := some "esri-mapServer" } },
    { id := some "ArcGIS FeatureServer Group", formatRegex := some "Feature Service",
      urlRegex := some "FeatureServer$|FeatureServer/$",
      definition := { defType := some "esri-featureServer-group" } },
    { id := some "ArcGIS FeatureServer", formatRegex := some "Feature Service",
      urlRegex := some "FeatureServer\\/\\d",
      definition := { defType := some "esri-featureServer" } },
    { id := some "Kml", formatRegex := some "KML",
      urlRegex := none,
      definition := { defType := some "kml" } } ]

end ArcGisPortalItemReference

/-- `prepareSupportedFormat`: compile the raw patterns (JS truthiness
guards: an absent or empty pattern string compiles to `undefined`). -/
def prepareSupportedFormat
    (format : ArcGisPortalItemFormatTraits) : PreparedSupportedFormat :=
  { urlRegex :=
      if jsTruthy format.urlRegex
      then (format.urlRegex).map compileRegexI else none,
    formatRegex :=
      if jsTruthy format.formatRegex
      then (format.formatRegex).map compileRegexI else none,
    definition := format.definition }

namespace ArcGisPortalItemReference

/-- `preparedSupportedFormats` computed over the default rule list. -/
def preparedDefaultFormats : List PreparedSupportedFormat :=
  defaultSupportedFormats.map prepareSupportedFormat

/-- `isItemInSupportedFormats`: walk the prepared rules in declaration
order; when a rule is missing one of its regexes, test the one present
(format regex against `item.type`, url regex against `item.url`); when
both are present, both must match; the first matching rule is returned. -/
def isItemInSupportedFormats
    (preparedSupportedFormats : List PreparedSupportedFormat)
    (item : Option ArcGisItem) : Option PreparedSupportedFormat :=
  match item with
  | none => none
  | some it => go preparedSupportedFormats it
where
  go : List PreparedSupportedFormat → ArcGisItem → Option PreparedSupportedFormat
  | [], _ => none
  | format :: rest, it =>
    if format.formatRegex.isNone || format.urlRegex.isNone then
      match format.formatRegex with
      | some fr => if fr.test it.itemType then some format else go rest it
      | none =>
        match format.urlRegex with
        | some ur => if ur.test it.url then some format else go rest it
        | none => go rest it
    else
      match format.formatRegex, format.urlRegex with
      | some fr, some ur =>
        if fr.test it.itemType && ur.test it.url then some format
        else go rest it
      | _, _ => go rest it

end ArcGisPortalItemReference

/-- The spec's matching policy, stated from its words: a rule matches if
(a) both regexes are present and both match, or (b) only one regex is
present and that one matches. -/
def specRuleMatches (item : ArcGisItem) (f : PreparedSupportedFormat) : Bool :=
  match f.formatRegex, f.urlRegex with
  | some fr, some ur => fr.test item.itemType && ur.test item.url
  | some fr, none => fr.test item.itemType
  | none, some ur => ur.test item.url
  | none, none => false

/-- One layer entry of the portal `/data` response (`ArcGisItemLayerInfo`). -/
structure ArcGisItemLayerInfo where
  id : String
deriving DecidableEq, Repr

/-- The portal `/data` response (`ArcGisItemInfo`): an optional `layers`
array and an optional `error` object (`jsonError := true` embeds a
present — hence truthy — error member). -/
structure ArcGisItemInfo where
  layers : Option (List ArcGisItemLayerInfo)
  jsonError : Bool
deriving DecidableEq, Repr

/-- The results the two network fetches of one resolution would deliver:
`itemFetch` for `loadJson` on `/sharing/rest/content/items/{id}` and
`dataFetch` for `loadJson` on `/sharing/rest/content/items/{id}/data`.
`Except.error` is a rejected promise. -/
structure FetchEnv where
  itemFetch : Except Unit ArcGisItem
  dataFetch : Except Unit ArcGisItemInfo

/-- The mutable fields of an `ArcGisPortalItemReference` read or written
during `forceLoadReference`, plus the resolved `supportedFormats` trait
in prepared form. -/
structure RefState where
  uniqueId : Option String
  arcgisItem : Option ArcGisItem
  supportedFormat : Option PreparedSupportedFormat
  preparedSupportedFormats : List PreparedSupportedFormat
deriving Repr

namespace ArcGisPortalItemReference

/-- `setSupportedFormatFromItem`. -/
def setSupportedFormatFromItem (s : RefState) (item : Option ArcGisItem) : RefState :=
  { s with supportedFormat := isItemInSupportedFormats s.preparedSupportedFormats item }

/-- `ArcGisPortalItemStratum.load` as called from `setArcgisStrata(this)`:
when no item is cached yet and the reference has a `uniqueId`, fetch the
portal item JSON (a failed fetch propagates) and run format matching on
it; otherwise leave the state alone (the catalog-group branch only sets
`_portalRootUrl`). -/
def stratumLoad (env : FetchEnv) (s : RefState) : Except Unit RefState :=
  match s.arcgisItem with
  | none =>
    match s.uniqueId with
    | some _ =>
      match env.itemFetch with
      | .error e => .error e
      | .ok item =>
        .ok (setSupportedFormatFromItem { s with arcgisItem := some item }
          (some item))
    | none => .ok s
  | some _ => .ok s

/-- `loadAdditionalPortalInfo`: best-effort fetch of the `/data` endpoint;
a rejected fetch is caught and yields `undefined`. -/
def loadAdditionalPortalInfo (env : FetchEnv) (s : RefState) : Option ArcGisItemInfo :=
  match s.arcgisItem with
  | none => none
  | some _ =>
    match env.dataFetch with
    | .ok response => some response
    | .error _ => none

/-- What `forceLoadReference` did after its fetches settled. -/
inductive RefOutcome
  | noTarget
  | created (modelType : Option String)
  | jsTypeError
deriving DecidableEq, Repr

/-- The url modification of the `/data` refinement: append the first
listed layer's id when no error member is present and the layers array is
non-empty. -/
def refinedItem (info : ArcGisItemInfo) (item : ArcGisItem) : ArcGisItem :=
  if !info.jsonError then
    match info.layers with
    | some layers =>
      match layers with
      | [] => item
      | l :: _ => { item with url := item.url ++ "/" ++ l.id }
    | none => item
  else item

/-- The `/data` refinement step of `forceLoadReference`: when the
best-effort info arrived and an item is cached, append the first listed
layer's id to the item url (only when no error member is present and the
layers array is non-empty) and re-run format matching on the (possibly
modified) item. -/
def refineWithItemInfo (itemDataInfo : Option ArcGisItemInfo)
    (s1 : RefState) : RefState :=
  match itemDataInfo, s1.arcgisItem with
  | some info, some item =>
    let item' := refinedItem info item
    setSupportedFormatFromItem { s1 with arcgisItem := some item' } (some item')
  | _, _ => s1

/-- The tiled-Map-Service special case of `forceLoadReference`: force the
single prepared format whose definition type is `esri-mapServer`. -/
def applyTiledOverride (s2 : RefState) : RefState :=
  match s2.arcgisItem with
  | some item =>
    if item.itemType == "Map Service" && item.typeKeywords.contains "Tiled" then
      match s2.preparedSupportedFormats.filter
          (fun (f : PreparedSupportedFormat) =>
            f.definition.defType == some "esri-mapServer") with
      | [mapServerFormat] => { s2 with supportedFormat := some mapServerFormat }
      | _ => s2
    else s2
  | none => s2

/-- `forceLoadReference`, driven by `env` (the fetch results) and
`factoryKnows` (which type discriminators `CatalogMemberFactory.create`
recognises).  Mirrors the source: load the item stratum; bail out with no
target when no format matched; refine with the `/data` info (appending the
first layer id to the item url and re-running format matching); force the
single `esri-mapServer` format for tiled Map Services; finally create the
target model.  Reading `definition.type` of an absent format is a JS
`TypeError` (`RefOutcome.jsTypeError`). -/
def forceLoadReference (env : FetchEnv) (factoryKnows : Option String → Bool)
    (s : RefState) : Except Unit (RefState × RefOutcome) :=
  match stratumLoad env s with
  | .error e => .error e
  | .ok s1 =>
  match s1.supportedFormat with
  | none => .ok (s1, .noTarget)
  | some _ =>
    let s2 := refineWithItemInfo (loadAdditionalPortalInfo env s1) s1
    let s3 := applyTiledOverride s2
    match s3.supportedFormat with
    | none => .ok (s3, .jsTypeError)
    | some format =>
      if factoryKnows format.definition.defType then
        .ok (s3, .created format.definition.defType)
      else
        .ok (s3, .noTarget)

end ArcGisPortalItemReference

/-! ## SDMX-JSON structure message data model
(`lib/Models/SdmxJson/SdmxJsonStructureMessage.ts` as consumed by
`SdmxJsonDataflowStratum`).  A JSON member that may be missing — or, where
the source guards with `Array.isArray`, not an array — is an `Option`. -/

/-- A generic split on a separator character. -/
def splitOnChar (sep : Char) : List Char → List (List Char)
  | [] => [[]]
  | c :: rest =>
    if c = sep then [] :: splitOnChar sep rest
    else
      match splitOnChar sep rest with
      | [] => [[c]]
      | b :: bs => (c :: b) :: bs

/-- The parsed form of an SDMX URN. -/
structure SdmxUrn where
  agencyId : Option String
  resourceId : Option String
  descendantIds : Option (List String)
deriving DecidableEq, Repr

/-- Modelled from the spec: `parseSdmxUrn` lives in
`SdmxJsonServerStratum.ts`, which is not part of the sources here.  The
spec describes URNs carrying a resource id (the concept scheme / codelist
id) and descendant ids whose terminal identifier names the concept, per
the SDMX URN shape
`urn:sdmx:org.sdmx.infomodel.<pkg>.<cls>=<agency>:<resourceId>(<version>).<desc>...`;
an input not of that shape parses to `undefined`. -/
def parseSdmxUrn (urn : Option String) : Option SdmxUrn :=
  match urn with
  | none => none
  | some u =>
    match splitOnChar '=' u.data with
    | [_, rhs] =>
      match splitOnChar '(' rhs with
      | [head, tail] =>
        match splitOnChar ':' head with
        | [agency, resource] =>
          match splitOnChar ')' tail with
          | [_, rest] =>
            let descendants :=
              match rest with
              | '.' :: ds => some ((splitOnChar '.' ds).map List.asString)
              | _ => none
            some { agencyId := some agency.asString,
                   resourceId := some resource.asString,
                   descendantIds := descendants }
          | _ => none
        | _ => none
      | _ => none
    | _ => none

/-- A codelist code. -/
structure Code where
  id : Option String := none
  name : Option String := none
deriving DecidableEq, Repr

/-- A codelist. -/
structure Codelist where
  id : Option String := none
  name : Option String := none
  codes : Option (List Code) := none
deriving DecidableEq, Repr

/-- A concept of a concept scheme. -/
structure SdmxConcept where
  id : Option String := none
  name : Option String := none
deriving DecidableEq, Repr

/-- A concept scheme. -/
structure SdmxConceptScheme where
  id : Option String := none
  concepts : Option (List SdmxConcept) := none
deriving DecidableEq, Repr

/-- `localRepresentation` of a dimension or attribute. -/
structure LocalRepresentation where
  enumeration : Option String := none
deriving DecidableEq, Repr

/-- The fields shared by dimensions and attributes that the stratum
reads (`dimOrAttr` in the source ranges over both). -/
structure SdmxComponent where
  id : Option String := none
  conceptIdentity : Option String := none
  localRepresentation : Option LocalRepresentation := none
deriving DecidableEq, Repr

/-- A (non-time) dimension of the data structure's dimension list. -/
structure SdmxMetaDimension extends SdmxComponent where
  dimensionType : String := "Dimension"
  position : Option Nat := none
deriving DecidableEq, Repr

/-- A time dimension. -/
structure SdmxTimeDimension where
  id : Option String := none
  conceptIdentity : Option String := none
deriving DecidableEq, Repr

/-- An attribute of the attribute list. -/
structure SdmxAttribute extends SdmxComponent where
  attrKind : Unit := ()
deriving DecidableEq, Repr

/-- One `keyValues` entry of a cube region. -/
structure KeyValue where
  id : Option String := none
  values : Option (List String) := none
deriving DecidableEq, Repr

/-- A cube region of a content constraint. -/
structure CubeRegion where
  keyValues : Option (List KeyValue) := none
deriving DecidableEq, Repr

/-- A content constraint. -/
structure ContentConstraint where
  constraintType : Option String := none
  cubeRegions : Option (List CubeRegion) := none
deriving DecidableEq, Repr

/-- The primary measure. -/
structure PrimaryMeasure where
  id : Option String := none
  conceptIdentity : Option String := none
deriving DecidableEq, Repr

/-- The measure list. -/
structure MeasureList where
  primaryMeasure : Option PrimaryMeasure := none
deriving DecidableEq, Repr

/-- The dimension list. -/
structure DimensionList where
  dimensions : Option (List SdmxMetaDimension) := none
  timeDimensions : Option (List SdmxTimeDimension) := none
deriving DecidableEq, Repr

/-- The attribute list. -/
structure AttributeList where
  attributes : Option (List SdmxAttribute) := none
deriving DecidableEq, Repr

/-- `dataStructureComponents`. -/
structure DataStructureComponents where
  dimensionList : DimensionList
  attributeList : Option AttributeList := none
  measureList : MeasureList := {}
deriving DecidableEq, Repr

/-- A data structure. -/
structure DataStructure where
  dataStructureComponents : Option DataStructureComponents := none
deriving DecidableEq, Repr

/-- A dataflow (only its description is read by the embedded getters). -/
structure Dataflow where
  description : Option String := none
deriving DecidableEq, Repr

/-- `SdmxJsonDataflow`: the immutable bundle the stratum is built from. -/
structure SdmxJsonDataflow where
  dataflow : Dataflow
  dataStructure : DataStructure
  codelists : Option (List Codelist) := none
  conceptSchemes : Option (List SdmxConceptScheme) := none
  contentConstraints : Option (List ContentConstraint) := none
deriving DecidableEq, Repr

/-- The `data` member of a structure message.  `none` for `dataflows` /
`dataStructures` embeds "missing or not an array" (the source guards both
with `Array.isArray`). -/
structure SdmxJsonStructureData where
  dataflows : Option (List Dataflow) := none
  dataStructures : Option (List DataStructure) := none
  codelists : Option (List Codelist) := none
  conceptSchemes : Option (List SdmxConceptScheme) := none
  contentConstraints : Option (List ContentConstraint) := none
deriving DecidableEq, Repr

/-- A fetched SDMX-JSON structure message. -/
structure SdmxJsonStructureMessage where
  data : Option SdmxJsonStructureData := none
deriving DecidableEq, Repr

/-- A `TerriaError`: a titled, user-facing error.  `i18next.t` is embedded
as the identity on message keys, so `title`/`message` hold the keys. -/
structure TitledError where
  title : String
  message : String
deriving DecidableEq, Repr

namespace SdmxJsonDataflowStratum

/-- The fixed error title used by all three structural checks of `load`. -/
def loadDataErrorTitle : String :=
  "models.sdmxJsonDataflowStratum.loadDataErrorTitle"

/-- `SdmxJsonDataflowStratum.load` after the fetch: validate the structure
message and either build the `SdmxJsonDataflow` bundle from the first
dataflow and first data structure, or throw a titled `TerriaError`. -/
def load (dataflowStructure : SdmxJsonStructureMessage) :
    Except TitledError SdmxJsonDataflow :=
  match dataflowStructure.data with
  | none =>
    .error { title := loadDataErrorTitle,
             message := "models.sdmxJsonDataflowStratum.loadDataErrorMessage.invalidResponse" }
  | some d =>
    match d.dataflows with
    | none =>
      .error { title := loadDataErrorTitle,
               message := "models.sdmxJsonDataflowStratum.loadDataErrorMessage.noDataflow" }
    | some dataflows =>
      if dataflows.length = 0 then
        .error { title := loadDataErrorTitle,
                 message := "models.sdmxJsonDataflowStratum.loadDataErrorMessage.noDataflow" }
      else
        match d.dataStructures with
        | none =>
          .error { title := loadDataErrorTitle,
                   message := "models.sdmxJsonDataflowStratum.loadDataErrorMessage.noDatastructure" }
        | some dataStructures =>
          match dataflows, dataStructures with
          | df :: _, ds :: _ =>
            .ok { dataflow := df, dataStructure := ds,
                  codelists := d.codelists,
                  conceptSchemes := d.conceptSchemes,
                  contentConstraints := d.contentConstraints }
          | _, [] =>
            .error { title := loadDataErrorTitle,
                     message := "models.sdmxJsonDataflowStratum.loadDataErrorMessage.noDatastructure" }
          | [], _ =>
            .error { title := loadDataErrorTitle,
                     message := "models.sdmxJsonDataflowStratum.loadDataErrorMessage.noDataflow" }

end SdmxJsonDataflowStratum

/-- One option of a selectable dimension (`{id, name}` pairs; a code
without an id yields an option whose id is `undefined`, as `code.id!` is
only a type assertion). -/
structure SdmxDimensionOption where
  id : Option String := none
  name : Option String := none
deriving DecidableEq, Repr

/-- A `{find, replace}` entry of `regionTypeReplacements`. -/
structure FindReplace where
  find : Option String := none
  replace : Option String := none
deriving DecidableEq, Repr

/-- `ModelOverrideTraits`: a per-concept / per-codelist override keyed by
URN (`id`), with `type` embedded as `overrideType`. -/
structure ModelOverride where
  id : Option String := none
  overrideType : Option String := none
  name : Option String := none
  options : Option (List SdmxDimensionOption) := none
  allowUndefined : Option Bool := none
  selectedId : Option String := none
  disable : Option Bool := none
  regionType : Option String := none
  regionTypeReplacements : Option (List FindReplace) := none
deriving DecidableEq, Repr

/-- `SdmxDimensionTraits` as produced by the `dimensions` getter. -/
structure SdmxDimension where
  id : String
  name : Option String := none
  options : List SdmxDimensionOption := []
  position : Option Nat := none
  disable : Option Bool := none
  allowUndefined : Option Bool := none
  selectedId : Option String := none
deriving DecidableEq, Repr

/-- A table column as seen through `findColumnByName` (only its
`uniqueValues.values` are read by the stratum). -/
structure ColumnView where
  uniqueValues : List String
deriving DecidableEq, Repr

/-- The members of the owning `SdmxJsonCatalogItem` that the stratum's
getters read: the resolved `modelOverrides` and `dimensions` traits, the
loaded table columns, and the region-provider matcher (the collaborator
behind `regionProviderList.getRegionDetails`, returning the matched
region provider's `regionType`). -/
structure CatalogItemView where
  modelOverrides : List ModelOverride
  dimensions : List SdmxDimension
  columns : List (String × ColumnView)
  regionMatcher : String → Option String

/-- `findColumnByName` on the owning catalog item. -/
def CatalogItemView.findColumnByName (v : CatalogItemView) (name : String) :
    Option ColumnView :=
  (v.columns.find? (fun c => c.1 == name)).map (fun c => c.2)

namespace SdmxJsonDataflowStratum

/-- `getConceptScheme`. -/
def getConceptScheme (d : SdmxJsonDataflow) (id : String) :
    Option SdmxConceptScheme :=
  d.conceptSchemes.bind (List.find? (fun c => c.id == some id))

/-- `getConceptByUrn`. -/
def getConceptByUrn (d : SdmxJsonDataflow) (urn : Option String) :
    Option SdmxConcept :=
  if jsTruthy urn then
    let conceptUrn := parseSdmxUrn urn
    let conceptSchemeId := conceptUrn.bind (fun u => u.resourceId)
    let conceptId := conceptUrn.bind (fun u => u.descendantIds.bind List.head?)
    match conceptId with
    | none => none
    | some cid =>
      let resolvedConceptScheme := conceptSchemeId.bind (getConceptScheme d)
      (resolvedConceptScheme.bind (fun cs => cs.concepts)).bind
        (List.find? (fun c => c.id == some cid))
  else none

/-- `getCodelistByUrn`. -/
def getCodelistByUrn (d : SdmxJsonDataflow) (urn : Option String) :
    Option Codelist :=
  if jsTruthy urn then
    match (parseSdmxUrn urn).bind (fun u => u.resourceId) with
    | none => none
    | some id => d.codelists.bind (List.find? (fun c => c.id == some id))
  else none

/-- `getDimensionWithConceptOrCodelist`. -/
def getDimensionWithConceptOrCodelist (d : SdmxJsonDataflow) (id : String) :
    Option SdmxMetaDimension :=
  (d.dataStructure.dataStructureComponents.bind
      (fun c => c.dimensionList.dimensions)).bind
    (List.find? (fun dim =>
      dim.conceptIdentity == some id ||
      dim.localRepresentation.bind (fun l => l.enumeration) == some id))

/-- `getAttributionWithConceptOrCodelist`. -/
def getAttributionWithConceptOrCodelist (d : SdmxJsonDataflow) (id : String) :
    Option SdmxAttribute :=
  ((d.dataStructure.dataStructureComponents.bind
      (fun c => c.attributeList)).bind (fun a => a.attributes)).bind
    (List.find? (fun attr =>
      attr.conceptIdentity == some id ||
      attr.localRepresentation.bind (fun l => l.enumeration) == some id))

/-- `getDimensionsWithOverrideType`: overrides of the given type with a
truthy id, resolved to the catalog item's dimensions through
`getDimensionWithConceptOrCodelist`, undefined results dropped. -/
def getDimensionsWithOverrideType (d : SdmxJsonDataflow)
    (view : CatalogItemView) (t : String) : List SdmxDimension :=
  (view.modelOverrides.filter
      (fun o => o.overrideType == some t && jsTruthy o.id)).filterMap
    (fun o =>
      match o.id with
      | none => none
      | some oid =>
        view.dimensions.find? (fun dm =>
          some dm.id == (getDimensionWithConceptOrCodelist d oid).bind
            (fun f => f.id)))

/-- `matchRegionType`: hand a defined candidate to the region-provider
matcher. -/
def matchRegionType (view : CatalogItemView) (regionType : Option String) :
    Option String :=
  match regionType with
  | none => none
  | some rt => view.regionMatcher rt

/-- The concept-keyed override of a dimension
(`modelOverrides.find(concept => concept.id === dim.conceptIdentity)`;
JS `===` also equates two `undefined` sides). -/
def findConceptOverride (view : CatalogItemView) (dim : SdmxMetaDimension) :
    Option ModelOverride :=
  view.modelOverrides.find? (fun o => o.id == dim.conceptIdentity)

/-- The codelist-keyed override of a dimension. -/
def findCodelistOverride (view : CatalogItemView) (dim : SdmxMetaDimension) :
    Option ModelOverride :=
  view.modelOverrides.find? (fun o =>
    o.id == dim.localRepresentation.bind (fun l => l.enumeration))

/-- The union, over the `Actual` content constraints' cube regions, of the
permitted codes for the given dimension; `none` when `contentConstraints`
is absent.  The JS `Set` only ever feeds an `includes` test and an
emptiness test, so it is embedded as the flat list of the added values. -/
def allowedOptionIdsFor (d : SdmxJsonDataflow) (dim : SdmxMetaDimension) :
    Option (List String) :=
  (d.contentConstraints.map
      (List.filter (fun c => c.constraintType == some "Actual"))).map
    (fun contraints =>
      contraints.foldl
        (fun keys constraint =>
          (constraint.cubeRegions.getD []).foldl
            (fun keys cubeRegion =>
              (((cubeRegion.keyValues.getD []).filter
                  (fun kv => kv.id == dim.id)).foldl
                (fun keys regionKey => keys ++ (regionKey.values.getD []))
                keys))
            keys)
        [])

/-- The default-selection lines of the `dimensions` getter for one
dimension: `undefined` when an applicable override's `allowUndefined` is
truthy, otherwise `options[0].id` (a `TypeError`, embedded as
`Except.error`, on an empty option list); an override's `selectedId`
replaces that default when it is the id of some option.  Codelist-keyed
override values are used over concept-keyed ones throughout. -/
def selectDefault (codelistOverride conceptOverride : Option ModelOverride)
    (opts : List SdmxDimensionOption) : Except Unit (Option String) :=
  let allowUndefinedHere :=
    (jsCoalesce (codelistOverride.bind (fun o => o.allowUndefined))
      (conceptOverride.bind (fun o => o.allowUndefined))).getD false
  (if allowUndefinedHere then (Except.ok none : Except Unit (Option String))
   else
     match opts with
     | [] => Except.error ()
     | o :: _ => Except.ok o.id).map
    (fun selectedIdDefault =>
      let selectedIdOverride :=
        jsCoalesce (codelistOverride.bind (fun o => o.selectedId))
          (conceptOverride.bind (fun o => o.selectedId))
      match selectedIdOverride with
      | some sid =>
        if (opts.find? (fun o => o.id == some sid)).isSome then some sid
        else selectedIdDefault
      | none => selectedIdDefault)

/-- The option-list resolution of the `dimensions` getter for one
dimension: override options (codelist-keyed before concept-keyed, when
non-empty) or codelist codes restricted to the constraint-allowed ids. -/
def resolvedOptions (d : SdmxJsonDataflow) (view : CatalogItemView)
    (dim : SdmxMetaDimension) : Option (List SdmxDimensionOption) :=
  let conceptOverride := findConceptOverride view dim
  let codelistOverride := findCodelistOverride view dim
  let codelist := getCodelistByUrn d
    (dim.localRepresentation.bind (fun l => l.enumeration))
  let allowedOptionIds := allowedOptionIdsFor d dim
  let codes : Option (List Code) :=
    match allowedOptionIds with
    | some ids =>
      if ids.length > 0 then
        (codelist.bind (fun c => c.codes)).map
          (List.filter (fun code => ids.any (fun i => code.id == some i)))
      else codelist.bind (fun c => c.codes)
    | none => codelist.bind (fun c => c.codes)
  let overrideOptions := jsCoalesce (codelistOverride.bind (fun o => o.options))
    (conceptOverride.bind (fun o => o.options))
  match overrideOptions with
  | some os =>
    if os.length > 0 then
      some (os.map (fun o => { id := o.id, name := o.name }))
    else codes.map (List.map (fun c => { id := c.id, name := c.name }))
  | none => codes.map (List.map (fun c => { id := c.id, name := c.name }))

/-- The body of the `.map` in the `dimensions` getter for one enumerated
dimension: resolve overrides, concept, codelist and allowed codes, build
the option list, and pick the default selection.  `Except.error` is the
JS `TypeError` of `options[0].id` on an empty option list. -/
def processDimension (d : SdmxJsonDataflow) (view : CatalogItemView)
    (dim : SdmxMetaDimension) : Except Unit (Option SdmxDimension) :=
  let conceptOverride := findConceptOverride view dim
  let codelistOverride := findCodelistOverride view dim
  let concept := getConceptByUrn d dim.conceptIdentity
  match resolvedOptions d view dim with
  | none => .ok none
  | some opts =>
    (selectDefault codelistOverride conceptOverride opts).map
      (fun selectedId =>
        some
          { id := dim.id.getD "",
            name := jsCoalesce (codelistOverride.bind (fun o => o.name))
              (jsCoalesce (conceptOverride.bind (fun o => o.name))
                (concept.bind (fun c => c.name))),
            options := opts,
            position := dim.position,
            disable := jsCoalesce (codelistOverride.bind (fun o => o.disable))
              (conceptOverride.bind (fun o => o.disable)),
            allowUndefined :=
              jsCoalesce (codelistOverride.bind (fun o => o.allowUndefined))
                (conceptOverride.bind (fun o => o.allowUndefined)),
            selectedId := selectedId })

/-- The filter selecting the enumerated dimensions
(`dim.id && dim.type === "Dimension" && dim.localRepresentation?.enumeration`). -/
def isEnumeratedDimension (dim : SdmxMetaDimension) : Bool :=
  jsTruthy dim.id && dim.dimensionType == "Dimension" &&
    jsTruthy (dim.localRepresentation.bind (fun l => l.enumeration))

/-- The `dimensions` getter: `.ok none` is the early `return` for a
missing/empty dimension list, `.error` the propagated `TypeError` of
`processDimension`. -/
def dimensions (d : SdmxJsonDataflow) (view : CatalogItemView) :
    Except Unit (Option (List SdmxDimension)) :=
  match d.dataStructure.dataStructureComponents.bind
      (fun c => c.dimensionList.dimensions) with
  | none => .ok none
  | some dimensionList =>
    if dimensionList.length = 0 then .ok none
    else do
      let processed ←
        (dimensionList.filter isEnumeratedDimension).mapM
          (processDimension d view)
      pure (some (processed.filterMap id))

end SdmxJsonDataflowStratum

/-- `TableColumnTraits` as produced by the stratum's column getters
(`type` embedded as `columnType`; the `transformation` nested traits are
flattened into its two members). -/
structure TableColumn where
  name : Option String := none
  title : Option String := none
  columnType : Option String := none
  regionType : Option String := none
  transformationExpression : Option String := none
  transformationDependencies : Option (List String) := none
deriving DecidableEq, Repr

namespace SdmxJsonDataflowStratum

/-- The `description` getter. -/
def description (d : SdmxJsonDataflow) : Option String :=
  d.dataflow.description

/-- The `modelOverrides` getter: auto-tag dimensions and attributes whose
concept URN's terminal identifier is `UNIT_MEASURE`, `UNIT_MULT` or
`FREQ`. -/
def stratumModelOverrides (d : SdmxJsonDataflow) : List ModelOverride :=
  (((d.dataStructure.dataStructureComponents.bind
        (fun c => c.dimensionList.dimensions)).getD []).map
      (fun dim => dim.toSdmxComponent) ++
    (((d.dataStructure.dataStructureComponents.bind
        (fun c => c.attributeList)).bind (fun a => a.attributes)).getD []).map
      (fun attr => attr.toSdmxComponent)).filterMap
    (fun dimAttr =>
      let conceptUrn := parseSdmxUrn dimAttr.conceptIdentity
      match conceptUrn.bind (fun u => u.descendantIds.bind List.head?) with
      | some "UNIT_MEASURE" =>
        some { id := dimAttr.conceptIdentity, overrideType := some "unit-measure" }
      | some "UNIT_MULT" =>
        some { id := dimAttr.conceptIdentity, overrideType := some "unit-multiplier" }
      | some "FREQ" =>
        some { id := dimAttr.conceptIdentity, overrideType := some "frequency" }
      | _ => none)

/-- `dimOrAttr`: an attribute or, failing that, a dimension keyed by the
override's concept/codelist URN. -/
def dimOrAttrFor (d : SdmxJsonDataflow) (oid : String) : Option SdmxComponent :=
  jsCoalesce
    ((getAttributionWithConceptOrCodelist d oid).map (fun a => a.toSdmxComponent))
    ((getDimensionWithConceptOrCodelist d oid).map (fun dm => dm.toSdmxComponent))

/-- The column an override's concept/codelist URN resolves to:
`dimOrAttr?.id ? this.catalogItem.findColumnByName(dimOrAttr.id) :
undefined`. -/
def overrideColumn (d : SdmxJsonDataflow) (view : CatalogItemView)
    (oid : String) : Option ColumnView :=
  let dimOrAttr := dimOrAttrFor d oid
  if jsTruthy (dimOrAttr.bind (fun c => c.id)) then
    view.findColumnByName ((dimOrAttr.bind (fun c => c.id)).getD "")
  else none

/-- The codelist of the dimension/attribute an override resolves to. -/
def overrideCodelist (d : SdmxJsonDataflow) (oid : String) : Option Codelist :=
  getCodelistByUrn d ((dimOrAttrFor d oid).bind
    (fun c => c.localRepresentation.bind (fun l => l.enumeration)))

/-- The body of the `.map` in `unitMeasure` for one `unit-measure`-tagged
override: the column's single unique value, resolved through the codelist
when a matching code exists; `none` (dropped by `filterOutUndefined`) when
the column is absent or has a number of unique values other than one. -/
def unitMeasureContribution (d : SdmxJsonDataflow) (view : CatalogItemView)
    (override : ModelOverride) : Option String :=
  match override.id with
  | none => none
  | some oid =>
    match overrideColumn d view oid with
    | none => none
    | some col =>
      match col.uniqueValues with
      | [value] =>
        some
          (((((overrideCodelist d oid).bind (fun c => c.codes)).bind
              (List.find? (fun c => c.id == some value))).bind
            (fun c => c.name)).getD value)
      | _ => none

/-- The `unitMeasure` getter: join the unit-measure contributions with
`", "` and append the selected frequency in parentheses when truthy. -/
def unitMeasure (d : SdmxJsonDataflow) (view : CatalogItemView) : String :=
  let unitMeasureStr := String.intercalate ", "
    ((view.modelOverrides.filter
        (fun o => o.overrideType == some "unit-measure" && jsTruthy o.id)).filterMap
      (unitMeasureContribution d view))
  let frequencyDim := (getDimensionsWithOverrideType d view "frequency").find?
    (fun dm => dm.selectedId.isSome)
  let frequency := jsCoalesce
    (frequencyDim.bind (fun fd =>
      (fd.options.find? (fun o => o.id == fd.selectedId)).bind (fun o => o.name)))
    (frequencyDim.map (fun fd => fd.id))
  unitMeasureStr ++
    (if jsTruthy frequency then " (" ++ frequency.getD "" ++ ")" else "")

/-- The `primaryMeasureColumn` getter. -/
def primaryMeasureColumn (d : SdmxJsonDataflow) (view : CatalogItemView) :
    TableColumn :=
  let primaryMeasure := d.dataStructure.dataStructureComponents.bind
    (fun c => c.measureList.primaryMeasure)
  let primaryMeasureConcept := getConceptByUrn d
    (primaryMeasure.bind (fun p => p.conceptIdentity))
  let unitMultiplier :=
    ((view.modelOverrides.filter
        (fun o => o.overrideType == some "unit-multiplier" && jsTruthy o.id)).filterMap
      (fun o =>
        match o.id with
        | none => none
        | some oid => (dimOrAttrFor d oid).bind (fun c => c.id))).head?
  { name := primaryMeasure.bind (fun p => p.id),
    title := primaryMeasureConcept.bind (fun c => c.name),
    transformationExpression :=
      unitMultiplier.map (fun um => "x*(10^" ++ um ++ ")"),
    transformationDependencies := unitMultiplier.map (fun um => [um]) }

/-- The body of the `.map` in `dimensionColumns` for one dimension:
disabled dimensions become hidden columns outright; otherwise the region
type is resolved through the override / delegation / name-and-id chain,
the `regionTypeReplacements` aliasing is applied when an override of type
`region` is present, and the column is `region` or `hidden` according to
whether a region type was found.  The `Except` propagates the possible
`TypeError` of the `dimensions` getter it consults. -/
def dimensionColumnFor (d : SdmxJsonDataflow) (view : CatalogItemView)
    (dim : SdmxMetaDimension) : Except Unit TableColumn :=
  match dimensions d view with
  | .error e => .error e
  | .ok stratumDims =>
  if (((stratumDims.getD []).find? (fun sd => some sd.id == dim.id)).bind
      (fun sd => sd.disable)).getD false then
    .ok { name := dim.id, columnType := some "hidden" }
  else
    let concept := getConceptByUrn d dim.conceptIdentity
    let codelist := getCodelistByUrn d
      (dim.localRepresentation.bind (fun l => l.enumeration))
    let conceptOverride := findConceptOverride view dim
    let codelistOverride := findCodelistOverride view dim
    let regionType0 := jsCoalesce
      (matchRegionType view (codelistOverride.bind (fun o => o.regionType)))
      (matchRegionType view (conceptOverride.bind (fun o => o.regionType)))
    let overrideTypeIsRegion :=
      codelistOverride.bind (fun o => o.overrideType) == some "region" ||
      conceptOverride.bind (fun o => o.overrideType) == some "region"
    let regionType1 :=
      if regionType0.isNone && overrideTypeIsRegion then
        matchRegionType view
          (((getDimensionsWithOverrideType d view "region-type").find?
              (fun sd => sd.selectedId.isSome)).bind (fun sd => sd.selectedId))
      else regionType0
    let regionType2 :=
      if regionType1.isNone then
        jsCoalesce (matchRegionType view dim.id)
          (jsCoalesce (matchRegionType view (codelist.bind (fun c => c.name)))
            (jsCoalesce (matchRegionType view (codelist.bind (fun c => c.id)))
              (jsCoalesce
                (matchRegionType view (concept.bind (fun c => c.name)))
                (matchRegionType view (concept.bind (fun c => c.id))))))
      else regionType1
    let regionType3 :=
      if overrideTypeIsRegion then
        let replacement :=
          ((jsCoalesce (codelistOverride.bind (fun o => o.regionTypeReplacements))
              (conceptOverride.bind (fun o => o.regionTypeReplacements))).bind
            (fun rs => rs.find? (fun r => r.find == regionType2))).bind
            (fun r => r.replace)
        match replacement with
        | some rep => some rep
        | none => regionType2
      else regionType2
    .ok { name := dim.id,
          title := concept.bind (fun c => c.name),
          columnType := if regionType3.isSome then some "region" else some "hidden",
          regionType := regionType3 }

/-- The `dimensionColumns` getter. -/
def dimensionColumns (d : SdmxJsonDataflow) (view : CatalogItemView) :
    Except Unit (List TableColumn) :=
  match d.dataStructure.dataStructureComponents.bind
      (fun c => c.dimensionList.dimensions) with
  | none => .ok []
  | some dims =>
    (dims.filter (fun dim => dim.id.isSome)).mapM (dimensionColumnFor d view)

/-- The `timeColumns` getter. -/
def timeColumns (d : SdmxJsonDataflow) : List TableColumn :=
  ((d.dataStructure.dataStructureComponents.bind
      (fun c => c.dimensionList.timeDimensions)).getD []).map
    (fun dim =>
      { name := dim.id,
        title := jsCoalesce
          ((getConceptByUrn d dim.conceptIdentity).bind (fun c => c.name))
          dim.id,
        columnType := some "time" })

/-- The `attributeColumns` getter. -/
def attributeColumns (d : SdmxJsonDataflow) : List TableColumn :=
  (((d.dataStructure.dataStructureComponents.bind
      (fun c => c.attributeList)).bind (fun a => a.attributes)).getD []).map
    (fun attr => { name := attr.id, columnType := some "hidden" })

/-- The `columns` getter. -/
def columns (d : SdmxJsonDataflow) (view : CatalogItemView) :
    Except Unit (List TableColumn) := do
  let dimCols ← dimensionColumns d view
  pure (primaryMeasureColumn d view :: (dimCols ++ timeColumns d ++ attributeColumns d))

end SdmxJsonDataflowStratum

/-! ## ArcGIS ImageServer catalog item
(`lib/Models/Catalog/Esri/ArcGisImageServerCatalogItem.ts`). -/

/-- Case-sensitive substring containment (JS `String.prototype.includes`). -/
def containsSeq (needle : List Char) : List Char → Bool
  | [] => needle.isEmpty
  | c :: rest => needle.isPrefixOf (c :: rest) || containsSeq needle rest

/-- `hay.includes(needle)`. -/
def strIncludes (hay needle : String) : Bool :=
  containsSeq needle.data hay.data

/-- A spatial reference. -/
structure SpatialReference where
  wkid : Option Nat := none
  latestWkid : Option Nat := none
deriving DecidableEq, Repr

/-- A service full extent (coordinates abstracted to integers; only the
spatial reference and the extent as a whole are consumed here). -/
structure FullExtent where
  xmin : Int := 0
  ymin : Int := 0
  xmax : Int := 0
  ymax : Int := 0
  spatialReference : Option SpatialReference := none
deriving DecidableEq, Repr

/-- The fields of the fetched `ImageServer` service metadata read by
`ImageServerStratum`. -/
structure ImageServer where
  name : Option String := none
  serviceDescription : Option String := none
  description : Option String := none
  copyrightText : Option String := none
  capabilities : Option String := none
  maxScale : Option Nat := none
  fullExtent : FullExtent := {}
deriving DecidableEq, Repr

/-- The external inputs of one `ImageServerStratum.load` run: whether the
item's url parses (`isDefined(item.uri)`), the token obtained when a
`tokenUrl` is configured, and the `getJson` result for the service
metadata (that helper swallows fetch errors into `undefined`). -/
structure ImageServerEnv where
  uriDefined : Bool
  token : Option String
  serviceMetadata : Option ImageServer

/-- `!serviceMetadata.capabilities?.includes("Image")` evaluates the
optional chain to `undefined` (falsy) when `capabilities` is absent. -/
def capabilitiesIncludesImage (m : ImageServer) : Bool :=
  match m.capabilities with
  | none => false
  | some c => strIncludes c "Image"

namespace ImageServerStratum

/-- `ImageServerStratum.load` up to the construction of the stratum:
reject an unparseable url, a missing/failed metadata fetch, and a service
whose capabilities do not include `"Image"`; otherwise the stratum
carries the metadata and token.  (`Reproject.checkProjection` only
registers Proj4 definitions and does not affect the result.)
`i18next.t` is embedded as the identity on keys. -/
def load (env : ImageServerEnv) :
    Except TitledError (ImageServer × Option String) :=
  if !env.uriDefined then
    .error { title := "models.arcGisImageServerCatalogItem.invalidUrlTitle",
             message := "models.arcGisImageServerCatalogItem.invalidUrlMessage" }
  else
    match env.serviceMetadata with
    | none =>
      .error { title := "models.arcGisService.invalidServerTitle",
               message := "models.arcGisService.invalidServerMessage" }
    | some serviceMetadata =>
      if !capabilitiesIncludesImage serviceMetadata then
        .error { title := "models.arcGisImageServerCatalogItem.invalidServiceTitle",
                 message := "models.arcGisImageServerCatalogItem.invalidServiceMessage" }
      else
        .ok (serviceMetadata, env.token)

end ImageServerStratum

/-! ## Loadable stratum duplication and trait resolution (claim C9)

The three `duplicateLoadableStratum` implementations copy the stratum's
constructor arguments onto a fresh instance; `ImageServerStratum` and
`SdmxJsonDataflowStratum` rebind their model backreference to the new
model, `ArcGisPortalItemStratum` keeps its captured reference object.
The trait-resolution engine itself (`Model`/`LoadableStratum` base
classes) is not among the sources, so it is modelled from the spec. -/

/-- The external collaborators the portal-item / image-server stratum
getters call (spec §1 treats these as black-box services):
`DOMPurify.sanitize` with the stratum's options, `i18next.t`, URI
building for the portal item page, and
`getRectangleFromLayer` from the MapServer catalog item module. -/
structure ExternalCollab where
  sanitize : String → String
  translate : String → String
  buildPortalItemUrl : String → String → String
  replaceUnderscores : Option String → Option String
  rectangleFromExtent : FullExtent → Int × Int × Int × Int

/-- The state of the `ArcGisPortalItemReference` that
`ArcGisPortalItemStratum`'s getters read. -/
structure ArcGisRefView where
  arcgisItem : Option ArcGisItem
  portalRootUrl : Option String
deriving DecidableEq, Repr

/-- `ArcGisPortalItemStratum`'s constructor arguments (`γ` is the catalog
group type; only its identity matters here). -/
structure ArcGisPortalItemStratumData (γ : Type) where
  arcgisPortalItemReference : ArcGisRefView
  arcgisPortalCatalogGroup : Option γ

/-- `ArcGisPortalItemStratum.duplicateLoadableStratum`: a fresh instance
over the same reference and catalog group (the new model is unused). -/
def ArcGisPortalItemStratumData.duplicateLoadableStratum {γ μ : Type}
    (s : ArcGisPortalItemStratumData γ) (_newModel : μ) :
    ArcGisPortalItemStratumData γ :=
  { arcgisPortalItemReference := s.arcgisPortalItemReference,
    arcgisPortalCatalogGroup := s.arcgisPortalCatalogGroup }

/-- The trait values `ArcGisPortalItemStratum` defines. -/
structure ArcGisPortalItemStratumTraits where
  url : Option String
  name : Option String
  description : Option String
  rectangle : Option ((Int × Int) × (Int × Int))
  portalItemUrl : Option String
  info : List (String × String)
deriving DecidableEq, Repr

/-- The getters of `ArcGisPortalItemStratum` as functions of the captured
reference state and the external collaborators. -/
def arcGisPortalItemStratumTraits {γ : Type} (ext : ExternalCollab)
    (s : ArcGisPortalItemStratumData γ) : ArcGisPortalItemStratumTraits :=
  let item := s.arcgisPortalItemReference.arcgisItem
  let portalItemUrl :=
    match item, s.arcgisPortalItemReference.portalRootUrl with
    | some it, some root => some (ext.buildPortalItemUrl root it.id)
    | _, _ => none
  { url := item.map (fun it =>
      if it.itemType = "Scene Service" then "/i3s-to-3dtiles/" ++ it.url
      else it.url),
    name := item.map (fun it => it.title),
    description := item.map (fun it => ext.sanitize it.description),
    rectangle := item.bind (fun it => it.extent),
    portalItemUrl := portalItemUrl,
    info :=
      match item with
      | none => []
      | some it =>
        (match it.licenseInfo with
         | some li => [(ext.translate "models.arcgisPortal.licence", ext.sanitize li)]
         | none => []) ++
        [(ext.translate "models.arcgisPortal.openInPortal",
          "<a href=\"" ++ (portalItemUrl.getD "undefined") ++ "\"><button>" ++
            ext.translate "models.arcgisPortal.openInPortal" ++ "</button></a>")] }

/-- `ImageServerStratum`'s constructor arguments (`μ` is the catalog item
type of the `_item` backreference). -/
structure ImageServerStratumData (μ : Type) where
  item : μ
  imageServer : ImageServer
  token : Option String

/-- `ImageServerStratum.duplicateLoadableStratum`: rebind `_item` to the
new model, keep the fetched metadata and token. -/
def ImageServerStratumData.duplicateLoadableStratum {μ : Type}
    (s : ImageServerStratumData μ) (newModel : μ) : ImageServerStratumData μ :=
  { item := newModel, imageServer := s.imageServer, token := s.token }

/-- The trait values `ImageServerStratum` defines. -/
structure ImageServerStratumTraits where
  maximumScale : Option Nat
  name : Option String
  rectangle : Int × Int × Int × Int
  info : List (String × Option String)
  attribution : Option String
  token : Option String
deriving DecidableEq, Repr

/-- The getters of `ImageServerStratum` as functions of the carried
metadata, token and the external collaborators (none of them reads
`_item`). -/
def imageServerStratumTraits {μ : Type} (ext : ExternalCollab)
    (s : ImageServerStratumData μ) : ImageServerStratumTraits :=
  { maximumScale := s.imageServer.maxScale,
    name := ext.replaceUnderscores s.imageServer.name,
    rectangle := ext.rectangleFromExtent s.imageServer.fullExtent,
    info :=
      [(ext.translate "models.arcGisImageServerCatalogItem.serviceDescription",
        s.imageServer.serviceDescription),
       (ext.translate "models.arcGisImageServerCatalogItem.description",
        s.imageServer.description)],
    attribution := s.imageServer.copyrightText,
    token := s.token }

/-- `SdmxJsonDataflowStratum`'s constructor arguments. -/
structure SdmxStratumData where
  catalogItem : CatalogItemView
  sdmxJsonDataflow : SdmxJsonDataflow

/-- `SdmxJsonDataflowStratum.duplicateLoadableStratum`: rebind the
catalog item to the new model, keep the fetched dataflow bundle. -/
def SdmxStratumData.duplicateLoadableStratum (s : SdmxStratumData)
    (newModel : CatalogItemView) : SdmxStratumData :=
  { catalogItem := newModel, sdmxJsonDataflow := s.sdmxJsonDataflow }

/-- The trait values `SdmxJsonDataflowStratum` defines (the getters
embedded above). -/
structure SdmxStratumTraits where
  description : Option String
  modelOverrides : List ModelOverride
  dimensions : Except Unit (Option (List SdmxDimension))
  unitMeasure : String
  primaryMeasureColumn : TableColumn
  dimensionColumns : Except Unit (List TableColumn)
  timeColumns : List TableColumn
  attributeColumns : List TableColumn
  columns : Except Unit (List TableColumn)

/-- The getters of `SdmxJsonDataflowStratum` as functions of the carried
dataflow bundle and the catalog item they are bound to. -/
def sdmxStratumTraits (s : SdmxStratumData) : SdmxStratumTraits :=
  { description := SdmxJsonDataflowStratum.description s.sdmxJsonDataflow,
    modelOverrides := SdmxJsonDataflowStratum.stratumModelOverrides s.sdmxJsonDataflow,
    dimensions := SdmxJsonDataflowStratum.dimensions s.sdmxJsonDataflow s.catalogItem,
    unitMeasure := SdmxJsonDataflowStratum.unitMeasure s.sdmxJsonDataflow s.catalogItem,
    primaryMeasureColumn :=
      SdmxJsonDataflowStratum.primaryMeasureColumn s.sdmxJsonDataflow s.catalogItem,
    dimensionColumns :=
      SdmxJsonDataflowStratum.dimensionColumns s.sdmxJsonDataflow s.catalogItem,
    timeColumns := SdmxJsonDataflowStratum.timeColumns s.sdmxJsonDataflow,
    attributeColumns := SdmxJsonDataflowStratum.attributeColumns s.sdmxJsonDataflow,
    columns := SdmxJsonDataflowStratum.columns s.sdmxJsonDataflow s.catalogItem }

/-- Modelled from the spec: the stratified trait-resolution engine of
§4.1 (`Model`/`LoadableStratum` are not among the sources).  A model is
its stratum map (stratum name to partial trait record); `order` lists the
global Stratum Order from highest to lowest priority; resolution returns
the first defined value. -/
def resolveTrait {V : Type} (order : List String)
    (strata : String → Option (String → Option V)) (traitName : String) :
    Option V :=
  match order with
  | [] => none
  | n :: rest =>
    match strata n with
    | some sm => jsCoalesce (sm traitName) (resolveTrait rest strata traitName)
    | none => resolveTrait rest strata traitName

/-- Modelled from the spec: installing a stratum under a name replaces
any prior stratum of that name (last-write-wins per stratum name). -/
def setStratum {V : Type} (strata : String → Option (String → Option V))
    (n : String) (sm : String → Option V) :
    String → Option (String → Option V) :=
  fun n' => if n' = n then some sm else strata n'

/-! ## Spec-side statements of the claimed policies -/

/-- The spec's structural-failure condition for the SDMX load, from its
words: the structure message has no `data` member, or its `dataflows`
member is not a non-empty array, or its `dataStructures` member is not a
non-empty array. -/
def specSdmxStructureBad (msg : SdmxJsonStructureMessage) : Bool :=
  match msg.data with
  | none => true
  | some d =>
    (match d.dataflows with
     | none => true
     | some l => l.isEmpty) ||
    (match d.dataStructures with
     | none => true
     | some l => l.isEmpty)

/-- The claim's default-selection policy for an enumerated dimension,
from its words: the id of the first option, unless an applicable
override's `allowUndefined` is set (then `undefined`); an override's
`selectedId` replaces this default only when it equals the id of some
option, codelist-level overrides taking precedence over concept-level
ones. -/
def specSelectedId (codelistOverride conceptOverride : Option ModelOverride)
    (opts : List SdmxDimensionOption) : Option String :=
  let allowUndefinedSet :=
    (jsCoalesce (codelistOverride.bind (fun o => o.allowUndefined))
      (conceptOverride.bind (fun o => o.allowUndefined))).getD false
  let base : Option String :=
    if allowUndefinedSet then none else opts.head?.bind (fun o => o.id)
  match jsCoalesce (codelistOverride.bind (fun o => o.selectedId))
      (conceptOverride.bind (fun o => o.selectedId)) with
  | some sid =>
    if opts.any (fun o => o.id == some sid) then some sid else base
  | none => base

/-- The claim's region-type procedure for a non-time dimension, from its
words: try, in order, the explicit override regionType (codelist before
concept), delegation to a `region-type`-tagged dimension with a selected
value (only when the override's type is `region`), the dimension id, the
codelist name, the codelist id, the concept name and the concept id,
each through the region-provider matcher; then apply any matching
`regionTypeReplacements` alias.  (As stated, the claim applies the alias
and the procedure unconditionally; the source skips disabled dimensions
entirely and only aliases under an override of type `region`.) -/
def specC8RegionType (d : SdmxJsonDataflow) (view : CatalogItemView)
    (dim : SdmxMetaDimension) : Option String :=
  let concept := SdmxJsonDataflowStratum.getConceptByUrn d dim.conceptIdentity
  let codelist := SdmxJsonDataflowStratum.getCodelistByUrn d
    (dim.localRepresentation.bind (fun l => l.enumeration))
  let conceptOverride := SdmxJsonDataflowStratum.findConceptOverride view dim
  let codelistOverride := SdmxJsonDataflowStratum.findCodelistOverride view dim
  let regionType0 := jsCoalesce
    (SdmxJsonDataflowStratum.matchRegionType view
      (codelistOverride.bind (fun o => o.regionType)))
    (SdmxJsonDataflowStratum.matchRegionType view
      (conceptOverride.bind (fun o => o.regionType)))
  let overrideTypeIsRegion :=
    codelistOverride.bind (fun o => o.overrideType) == some "region" ||
    conceptOverride.bind (fun o => o.overrideType) == some "region"
  let regionType1 :=
    if regionType0.isNone && overrideTypeIsRegion then
      SdmxJsonDataflowStratum.matchRegionType view
        (((SdmxJsonDataflowStratum.getDimensionsWithOverrideType d view
            "region-type").find?
            (fun sd => sd.selectedId.isSome)).bind (fun sd => sd.selectedId))
    else regionType0
  let regionType2 :=
    if regionType1.isNone then
      jsCoalesce (SdmxJsonDataflowStratum.matchRegionType view dim.id)
        (jsCoalesce
          (SdmxJsonDataflowStratum.matchRegionType view
            (codelist.bind (fun c => c.name)))
          (jsCoalesce
            (SdmxJsonDataflowStratum.matchRegionType view
              (codelist.bind (fun c => c.id)))
            (jsCoalesce
              (SdmxJsonDataflowStratum.matchRegionType view
                (concept.bind (fun c => c.name)))
              (SdmxJsonDataflowStratum.matchRegionType view
                (concept.bind (fun c => c.id))))))
    else regionType1
  let replacement :=
    ((jsCoalesce (codelistOverride.bind (fun o => o.regionTypeReplacements))
        (conceptOverride.bind (fun o => o.regionTypeReplacements))).bind
      (fun rs => rs.find? (fun r => r.find == regionType2))).bind
      (fun r => r.replace)
  match replacement with
  | some rep => some rep
  | none => regionType2

/-- The amended region-type procedure: as the claim, but the
`regionTypeReplacements` alias is only applied when an applicable
override's type is `region` (matching the source's guard). -/
def amendedC8RegionType (d : SdmxJsonDataflow) (view : CatalogItemView)
    (dim : SdmxMetaDimension) : Option String :=
  let concept := SdmxJsonDataflowStratum.getConceptByUrn d dim.conceptIdentity
  let codelist := SdmxJsonDataflowStratum.getCodelistByUrn d
    (dim.localRepresentation.bind (fun l => l.enumeration))
  let conceptOverride := SdmxJsonDataflowStratum.findConceptOverride view dim
  let codelistOverride := SdmxJsonDataflowStratum.findCodelistOverride view dim
  let regionType0 := jsCoalesce
    (SdmxJsonDataflowStratum.matchRegionType view
      (codelistOverride.bind (fun o => o.regionType)))
    (SdmxJsonDataflowStratum.matchRegionType view
      (conceptOverride.bind (fun o => o.regionType)))
  let overrideTypeIsRegion :=
    codelistOverride.bind (fun o => o.overrideType) == some "region" ||
    conceptOverride.bind (fun o => o.overrideType) == some "region"
  let regionType1 :=
    if regionType0.isNone && overrideTypeIsRegion then
      SdmxJsonDataflowStratum.matchRegionType view
        (((SdmxJsonDataflowStratum.getDimensionsWithOverrideType d view
            "region-type").find?
            (fun sd => sd.selectedId.isSome)).bind (fun sd => sd.selectedId))
    else regionType0
  let regionType2 :=
    if regionType1.isNone then
      jsCoalesce (SdmxJsonDataflowStratum.matchRegionType view dim.id)
        (jsCoalesce
          (SdmxJsonDataflowStratum.matchRegionType view
            (codelist.bind (fun c => c.name)))
          (jsCoalesce
            (SdmxJsonDataflowStratum.matchRegionType view
              (codelist.bind (fun c => c.id)))
            (jsCoalesce
              (SdmxJsonDataflowStratum.matchRegionType view
                (concept.bind (fun c => c.name)))
              (SdmxJsonDataflowStratum.matchRegionType view
                (concept.bind (fun c => c.id))))))
    else regionType1
  if overrideTypeIsRegion then
    let replacement :=
      ((jsCoalesce (codelistOverride.bind (fun o => o.regionTypeReplacements))
          (conceptOverride.bind (fun o => o.regionTypeReplacements))).bind
        (fun rs => rs.find? (fun r => r.find == regionType2))).bind
        (fun r => r.replace)
    match replacement with
    | some rep => some rep
    | none => regionType2
  else regionType2

/-! ## Concrete instances used by witnesses and counterexamples -/

/-- The claim's example item: a Feature Service whose url names layer 3. -/
def c1Item : ArcGisItem :=
  { id := "fs1", itemType := "Feature Service",
    url := "https://example.com/arcgis/rest/services/Foo/FeatureServer/3" }

/-- A tiled Map Service portal item. -/
def c2Item : ArcGisItem :=
  { id := "ms1", itemType := "Map Service",
    url := "https://example.com/arcgis/rest/services/Bar/MapServer",
    typeKeywords := ["Data", "Tiled", "Service"] }

/-- Fetch results delivering `c2Item` and a failing `/data` fetch. -/
def c2Env : FetchEnv :=
  { itemFetch := .ok c2Item, dataFetch := .error () }

/-- A fresh reference about to resolve `c2Item`. -/
def c2State : RefState :=
  { uniqueId := some "ref-c2", arcgisItem := none, supportedFormat := none,
    preparedSupportedFormats := ArcGisPortalItemReference.preparedDefaultFormats }

/-- `c2State` after its item stratum loaded. -/
def c2S1 : RefState :=
  { c2State with
    arcgisItem := some c2Item,
    supportedFormat := ArcGisPortalItemReference.isItemInSupportedFormats
      ArcGisPortalItemReference.preparedDefaultFormats (some c2Item) }

/-- A Feature Service group item whose `/data` endpoint names layer 0. -/
def c3Item : ArcGisItem :=
  { id := "fs3", itemType := "Feature Service",
    url := "https://example.com/arcgis/rest/services/Baz/FeatureServer" }

/-- Fetch results whose `/data` response lists one layer. -/
def c3Env : FetchEnv :=
  { itemFetch := .ok c3Item,
    dataFetch := .ok { layers := some [{ id := "0" }], jsonError := false } }

/-- Fetch results whose `/data` fetch rejects. -/
def c3EnvErr : FetchEnv :=
  { itemFetch := .ok c3Item, dataFetch := .error () }

/-- A fresh reference about to resolve `c3Item`. -/
def c3State : RefState :=
  { uniqueId := some "ref-c3", arcgisItem := none, supportedFormat := none,
    preparedSupportedFormats := ArcGisPortalItemReference.preparedDefaultFormats }

/-- `c3State` after its item stratum loaded. -/
def c3S1 : RefState :=
  { c3State with
    arcgisItem := some c3Item,
    supportedFormat := ArcGisPortalItemReference.isItemInSupportedFormats
      ArcGisPortalItemReference.preparedDefaultFormats (some c3Item) }

/-- A portal item matching no default format rule. -/
def c4Item : ArcGisItem :=
  { id := "doc1", itemType := "Microsoft Word",
    url := "https://example.com/documents/report.docx" }

/-- Fetch results delivering `c4Item`. -/
def c4Env : FetchEnv :=
  { itemFetch := .ok c4Item, dataFetch := .error () }

/-- A fresh reference about to resolve `c4Item`. -/
def c4State : RefState :=
  { uniqueId := some "ref-c4", arcgisItem := none, supportedFormat := none,
    preparedSupportedFormats := ArcGisPortalItemReference.preparedDefaultFormats }

/-- A codelist URN (SDMX URN shape) for the `STE` dimension. -/
def c8CodelistUrn : String :=
  "urn:sdmx:org.sdmx.infomodel.codelist.Codelist=ABS:CL_STE(1.0)"

/-- An enumerated `STE` dimension over that codelist. -/
def c8Dim : SdmxMetaDimension :=
  { id := some "STE",
    localRepresentation := some { enumeration := some c8CodelistUrn } }

/-- A dataflow bundle with the single `STE` dimension and its codelist. -/
def c8Dataflow : SdmxJsonDataflow :=
  { dataflow := {},
    dataStructure :=
      { dataStructureComponents := some
          { dimensionList := { dimensions := some [c8Dim] } } },
    codelists := some
      [{ id := some "CL_STE", name := some "State",
         codes := some [{ id := some "1", name := some "New South Wales" }] }] }

/-- A catalog item whose override disables the `STE` dimension, with a
region matcher that recognises `STE`. -/
def c8View : CatalogItemView :=
  { modelOverrides := [{ id := some c8CodelistUrn, disable := some true }],
    dimensions := [], columns := [],
    regionMatcher := fun rt => if rt == "STE" then some "STE" else none }

/-- The same catalog item without the disabling override. -/
def c8ViewB : CatalogItemView :=
  { modelOverrides := [], dimensions := [], columns := [],
    regionMatcher := fun rt => if rt == "STE" then some "STE" else none }

/-- The dimension trait record the stratum computes for `c8Dim` under
`c8View`. -/
def c8DimResult : SdmxDimension :=
  { id := "STE",
    options := [{ id := some "1", name := some "New South Wales" }],
    disable := some true,
    selectedId := some "1" }

/-- The dimension trait record computed under `c8ViewB`. -/
def c8DimResultB : SdmxDimension :=
  { id := "STE",
    options := [{ id := some "1", name := some "New South Wales" }],
    selectedId := some "1" }

/-- A concept URN whose terminal identifier is `CURRENCY`. -/
def c7CurrencyUrn : String :=
  "urn:sdmx:org.sdmx.infomodel.conceptscheme.Concept=ABS:CS_COMMON(1.0).CURRENCY"

/-- A concept URN whose terminal identifier is `MEASURE`. -/
def c7MeasureUrn : String :=
  "urn:sdmx:org.sdmx.infomodel.conceptscheme.Concept=ABS:CS_COMMON(1.0).MEASURE"

/-- A concept URN whose terminal identifier is `FREQ`. -/
def c7FreqUrn : String :=
  "urn:sdmx:org.sdmx.infomodel.conceptscheme.Concept=ABS:CS_COMMON(1.0).FREQ"

/-- A dataflow bundle with a `FREQ` dimension and two attributes tagged
by the `CURRENCY` and `MEASURE` concepts. -/
def c7Dataflow : SdmxJsonDataflow :=
  { dataflow := {},
    dataStructure :=
      { dataStructureComponents := some
          { dimensionList :=
              { dimensions := some
                  [{ id := some "FREQ", conceptIdentity := some c7FreqUrn }] },
            attributeList := some
              { attributes := some
                  [{ id := some "CURRENCY", conceptIdentity := some c7CurrencyUrn },
                   { id := some "MEASURE", conceptIdentity := some c7MeasureUrn }] } } } }

/-- A catalog item with two `unit-measure` overrides — the `CURRENCY`
column has the single unique value `AUD`, the `MEASURE` column has two —
and a selected `Quarterly` frequency. -/
def c7View : CatalogItemView :=
  { modelOverrides :=
      [{ id := some c7CurrencyUrn, overrideType := some "unit-measure" },
       { id := some c7MeasureUrn, overrideType := some "unit-measure" },
       { id := some c7FreqUrn, overrideType := some "frequency" }],
    dimensions :=
      [{ id := "FREQ",
         options := [{ id := some "Q", name := some "Quarterly" }],
         selectedId := some "Q" }],
    columns :=
      [("CURRENCY", { uniqueValues := ["AUD"] }),
       ("MEASURE", { uniqueValues := ["AUD", "USD"] })],
    regionMatcher := fun _ => none }

/-- A codelist URN for the `C6` currency dimension. -/
def c6CodelistUrn : String :=
  "urn:sdmx:org.sdmx.infomodel.codelist.Codelist=ABS:CL_CUR(1.0)"

/-- An enumerated dimension over that codelist. -/
def c6Dim : SdmxMetaDimension :=
  { id := some "CUR",
    localRepresentation := some { enumeration := some c6CodelistUrn } }

/-- A dataflow bundle carrying the codelist for `c6Dim`. -/
def c6Dataflow : SdmxJsonDataflow :=
  { dataflow := {},
    dataStructure :=
      { dataStructureComponents := some
          { dimensionList := { dimensions := some [c6Dim] } } },
    codelists := some
      [{ id := some "CL_CUR",
         codes := some
           [{ id := some "AUD", name := some "Australian Dollar" },
            { id := some "USD", name := some "US Dollar" }] }] }

/-- A catalog item whose codelist-keyed override selects `USD`. -/
def c6View : CatalogItemView :=
  { modelOverrides := [{ id := some c6CodelistUrn, selectedId := some "USD" }],
    dimensions := [], columns := [], regionMatcher := fun _ => none }

/-- The dimension trait record `processDimension` computes for `c6Dim`
under `c6View`: the override's `USD` replaces the first-option default. -/
def c6DimResult : SdmxDimension :=
  { id := "CUR",
    options :=
      [{ id := some "AUD", name := some "Australian Dollar" },
       { id := some "USD", name := some "US Dollar" }],
    selectedId := some "USD" }

/-- Identity-style external collaborators for the witnesses. -/
def w9Ext : ExternalCollab :=
  { sanitize := id, translate := id,
    buildPortalItemUrl := fun root iid => root ++ "/home/item.html?id=" ++ iid,
    replaceUnderscores := id,
    rectangleFromExtent := fun _ => (0, 0, 0, 0) }

/-- A loaded portal-item stratum over `c1Item`. -/
def w9ArcStratum : ArcGisPortalItemStratumData Unit :=
  { arcgisPortalItemReference :=
      { arcgisItem := some c1Item, portalRootUrl := some "https://portal" },
    arcgisPortalCatalogGroup := none }

/-- A loaded image-server stratum (model backreference abstracted to a
number). -/
def w9ImgStratum : ImageServerStratumData Nat :=
  { item := 1,
    imageServer := { name := some "My_Service", capabilities := some "Image" },
    token := some "tok" }

/-- A loaded SDMX stratum over the `c6` bundle. -/
def w9SdmxStratum : SdmxStratumData :=
  { catalogItem := c6View, sdmxJsonDataflow := c6Dataflow }

/-- A one-trait stratum map. -/
def w9SM : String → Option Nat :=
  fun t => if t = "x" then some 1 else none

/-- A model holding `w9SM` under the load stratum name. -/
def w9Strata : String → Option (String → Option Nat) :=
  fun n => if n = "load" then some w9SM else none

/-- Service metadata for a catalog (non-image) ArcGIS service. -/
def c10Metadata : ImageServer :=
  { name := some "Cat", capabilities := some "Catalog,Mensuration" }

/-- A load environment delivering `c10Metadata`. -/
def c10Env : ImageServerEnv :=
  { uriDefined := true, token := none, serviceMetadata := some c10Metadata }

/-- A codelist URN for the currency codelist. -/
def c7bCodelistUrn : String :=
  "urn:sdmx:org.sdmx.infomodel.codelist.Codelist=ABS:CL_CURRENCY(1.0)"

/-- A dataflow bundle whose `CURRENCY` attribute is enumerated by a
codelist resolving `AUD` to a label. -/
def c7bDataflow : SdmxJsonDataflow :=
  { dataflow := {},
    dataStructure :=
      { dataStructureComponents := some
          { dimensionList := {},
            attributeList := some
              { attributes := some
                  [{ id := some "CURRENCY",
                     conceptIdentity := some c7CurrencyUrn,
                     localRepresentation := some
                       { enumeration := some c7bCodelistUrn } }] } } },
    codelists := some
      [{ id := some "CL_CURRENCY",
         codes := some [{ id := some "AUD", name := some "Australian Dollar" }] }] }

/-- A catalog item with a `unit-measure` override over `c7bDataflow` and
a single-valued `CURRENCY` column. -/
def c7bView : CatalogItemView :=
  { modelOverrides :=
      [{ id := some c7CurrencyUrn, overrideType := some "unit-measure" }],
    dimensions := [],
    columns := [("CURRENCY", { uniqueValues := ["AUD"] })],
    regionMatcher := fun _ => none }

/-- Fetch results whose `/data` response carries both an error member and
a non-empty layers array. -/
def c3EnvBad : FetchEnv :=
  { itemFetch := .ok c3Item,
    dataFetch := .ok { layers := some [{ id := "0" }], jsonError := true } }

/-! ## Theorems -/

/-- Helper: the format-matching loop returns the first rule satisfying
the spec's (a)/(b) policy. -/
theorem supportedFormats_go_eq_find (it : ArcGisItem) :
    ∀ fmts : List PreparedSupportedFormat,
      ArcGisPortalItemReference.isItemInSupportedFormats.go fmts it
        = fmts.find? (specRuleMatches it)
  | [] => rfl
  | f :: rest => by
    have ih := supportedFormats_go_eq_find it rest
    rcases hf : f.formatRegex with _ | fr <;> rcases hu : f.urlRegex with _ | ur
    · simp [ArcGisPortalItemReference.isItemInSupportedFormats.go, specRuleMatches,
        List.find?, hf, hu, ih]
    · cases hb : ur.test it.url <;>
        simp [ArcGisPortalItemReference.isItemInSupportedFormats.go, specRuleMatches,
          List.find?, hf, hu, ih, hb]
    · cases ha : fr.test it.itemType <;>
        simp [ArcGisPortalItemReference.isItemInSupportedFormats.go, specRuleMatches,
          List.find?, hf, hu, ih, ha]
    · cases ha : fr.test it.itemType <;> cases hb : ur.test it.url <;>
        simp [ArcGisPortalItemReference.isItemInSupportedFormats.go, specRuleMatches,
          List.find?, hf, hu, ih, ha, hb]

/-- C1: `isItemInSupportedFormats` evaluates the prepared rules in
declaration order and returns the first rule matching the spec's policy —
both regexes present and both matching, or exactly the present one
matching — and on an item of type `Feature Service` with a url ending in
`/FeatureServer/3` the matched default rule is the single-layer
`ArcGIS FeatureServer` (definition type `esri-featureServer`), not
`ArcGIS FeatureServer Group`. -/
theorem claim_c1 :
    (∀ (formats : List PreparedSupportedFormat) (item : ArcGisItem),
      ArcGisPortalItemReference.isItemInSupportedFormats formats (some item)
        = formats.find? (specRuleMatches item))
    ∧ ArcGisPortalItemReference.isItemInSupportedFormats
        ArcGisPortalItemReference.preparedDefaultFormats (some c1Item)
      = (ArcGisPortalItemReference.defaultSupportedFormats.find?
          (fun t => t.id == some "ArcGIS FeatureServer")).map prepareSupportedFormat
    ∧ (ArcGisPortalItemReference.isItemInSupportedFormats
        ArcGisPortalItemReference.preparedDefaultFormats (some c1Item)).map
          (fun f => f.definition.defType)
      = some (some "esri-featureServer")
    ∧ ArcGisPortalItemReference.isItemInSupportedFormats
        ArcGisPortalItemReference.preparedDefaultFormats (some c1Item)
      ≠ (ArcGisPortalItemReference.defaultSupportedFormats.find?
          (fun t => t.id == some "ArcGIS FeatureServer Group")).map prepareSupportedFormat :=
  ⟨fun formats item => supportedFormats_go_eq_find item formats,
   by decide, by decide, by decide⟩

/-- Helper: loading the item stratum does not touch the prepared format
list. -/
theorem stratumLoad_prepared (env : FetchEnv) (s s1 : RefState)
    (h : ArcGisPortalItemReference.stratumLoad env s = .ok s1) :
    s1.preparedSupportedFormats = s.preparedSupportedFormats := by
  unfold ArcGisPortalItemReference.stratumLoad at h
  rcases hi : s.arcgisItem with _ | it <;> rw [hi] at h
  · rcases hu : s.uniqueId with _ | uid <;> rw [hu] at h
    · injection h with h; rw [← h]
    · rcases hf : env.itemFetch with e | item <;> rw [hf] at h
      · exact absurd h (by simp)
      · injection h with h; rw [← h]; rfl
  · injection h with h; rw [← h]

/-- Helper: the url modification preserves the item's type. -/
theorem refinedItem_itemType (info : ArcGisItemInfo) (item : ArcGisItem) :
    (ArcGisPortalItemReference.refinedItem info item).itemType = item.itemType := by
  unfold ArcGisPortalItemReference.refinedItem
  split
  · rcases info.layers with _ | ls
    · rfl
    · rcases ls with _ | ⟨l, rest⟩ <;> rfl
  · rfl

/-- Helper: the url modification preserves the item's type keywords. -/
theorem refinedItem_typeKeywords (info : ArcGisItemInfo) (item : ArcGisItem) :
    (ArcGisPortalItemReference.refinedItem info item).typeKeywords
      = item.typeKeywords := by
  unfold ArcGisPortalItemReference.refinedItem
  split
  · rcases info.layers with _ | ls
    · rfl
    · rcases ls with _ | ⟨l, rest⟩ <;> rfl
  · rfl

/-- Helper: the refinement step with no `/data` info is the identity. -/
theorem refineWithItemInfo_none (s1 : RefState) :
    ArcGisPortalItemReference.refineWithItemInfo none s1 = s1 := by
  unfold ArcGisPortalItemReference.refineWithItemInfo
  rcases s1.arcgisItem <;> rfl

/-- Helper: the refinement step with `/data` info and a cached item
re-runs format matching on the refined item. -/
theorem refineWithItemInfo_some (info : ArcGisItemInfo) (s1 : RefState)
    (item : ArcGisItem) (hitem : s1.arcgisItem = some item) :
    ArcGisPortalItemReference.refineWithItemInfo (some info) s1
      = ArcGisPortalItemReference.setSupportedFormatFromItem
          { s1 with
            arcgisItem := some (ArcGisPortalItemReference.refinedItem info item) }
          (some (ArcGisPortalItemReference.refinedItem info item)) := by
  unfold ArcGisPortalItemReference.refineWithItemInfo
  rw [hitem]

/-- Helper: the tiled override never touches the cached item. -/
theorem applyTiledOverride_item (s2 : RefState) :
    (ArcGisPortalItemReference.applyTiledOverride s2).arcgisItem
      = s2.arcgisItem := by
  unfold ArcGisPortalItemReference.applyTiledOverride
  cases h2 : s2.arcgisItem with
  | none => exact h2
  | some item =>
    dsimp only
    split
    · split
      · rfl
      · exact h2
    · exact h2

/-- Helper: among the prepared default formats exactly one has definition
type `esri-mapServer`. -/
theorem preparedDefaults_mapServer_filter :
    ArcGisPortalItemReference.preparedDefaultFormats.filter
      (fun (f : PreparedSupportedFormat) =>
        f.definition.defType == some "esri-mapServer")
    = [prepareSupportedFormat
        { id := some "ArcGIS MapServer", formatRegex := some "Map Service",
          urlRegex := some "MapServer\\/\\d",
          definition := { defType := some "esri-mapServer" } }] := by decide

/-- Helper: for a tiled Map Service item over the default format list the
override installs the unique `esri-mapServer` format. -/
theorem applyTiledOverride_tiled (s2 : RefState) (item : ArcGisItem)
    (hitem : s2.arcgisItem = some item)
    (htype : item.itemType = "Map Service")
    (htiled : item.typeKeywords.contains "Tiled" = true)
    (hprep : s2.preparedSupportedFormats
      = ArcGisPortalItemReference.preparedDefaultFormats) :
    ∃ fmt, ArcGisPortalItemReference.applyTiledOverride s2
        = { s2 with supportedFormat := some fmt }
      ∧ fmt.definition.defType = some "esri-mapServer" := by
  unfold ArcGisPortalItemReference.applyTiledOverride
  rw [hitem]
  dsimp only
  rw [htype, htiled, hprep]
  rw [show (("Map Service" == "Map Service" : Bool) && true) = true from rfl]
  rw [preparedDefaults_mapServer_filter]
  exact ⟨_, rfl, rfl⟩

/-- Helper: the tiled override installs a format only over an installed
one. -/
theorem applyTiledOverride_isSome (s2 : RefState)
    (h : s2.supportedFormat.isSome = true) :
    (ArcGisPortalItemReference.applyTiledOverride s2).supportedFormat.isSome
      = true := by
  unfold ArcGisPortalItemReference.applyTiledOverride
  cases h2 : s2.arcgisItem with
  | none => exact h
  | some item =>
    dsimp only
    split
    · split
      · rfl
      · exact h
    · exact h

/-- Helper: without the tiled-Map-Service conditions the override is the
identity. -/
theorem applyTiledOverride_notTiled (s2 : RefState) (item : ArcGisItem)
    (hitem : s2.arcgisItem = some item)
    (h : ¬(item.itemType = "Map Service" ∧
        item.typeKeywords.contains "Tiled" = true)) :
    ArcGisPortalItemReference.applyTiledOverride s2 = s2 := by
  unfold ArcGisPortalItemReference.applyTiledOverride
  rw [hitem]
  dsimp only
  rw [if_neg]
  intro hcond
  rcases Bool.and_eq_true_iff.mp hcond with ⟨h1, h2⟩
  exact h ⟨by simpa using h1, h2⟩

/-- Helper: a failed `/data` fetch yields no additional info. -/
theorem loadAdditionalPortalInfo_error (env : FetchEnv) (s1 : RefState)
    (herr : env.dataFetch = .error ()) :
    ArcGisPortalItemReference.loadAdditionalPortalInfo env s1 = none := by
  unfold ArcGisPortalItemReference.loadAdditionalPortalInfo
  cases s1.arcgisItem
  · rfl
  · rw [herr]

/-- Helper: a successful `/data` fetch with a cached item yields the
response. -/
theorem loadAdditionalPortalInfo_ok (env : FetchEnv) (s1 : RefState)
    (item : ArcGisItem) (info : ArcGisItemInfo)
    (hitem : s1.arcgisItem = some item) (hok : env.dataFetch = .ok info) :
    ArcGisPortalItemReference.loadAdditionalPortalInfo env s1 = some info := by
  unfold ArcGisPortalItemReference.loadAdditionalPortalInfo
  rw [hitem, hok]

/-- Helper: the url modification with an error-free response listing at
least one layer appends the first layer's id. -/
theorem refinedItem_append (info : ArcGisItemInfo) (item : ArcGisItem)
    (l : ArcGisItemLayerInfo) (ls : List ArcGisItemLayerInfo)
    (herr : info.jsonError = false) (hlayers : info.layers = some (l :: ls)) :
    ArcGisPortalItemReference.refinedItem info item
      = { item with url := item.url ++ "/" ++ l.id } := by
  unfold ArcGisPortalItemReference.refinedItem
  rw [herr, hlayers]
  rfl

/-- C2: a loaded Map Service item whose type keywords include `Tiled`
ends the resolution with the unique default `esri-mapServer` format
installed as the selected supported format, whatever format the regex
matching had computed. -/
theorem claim_c2 (env : FetchEnv) (factoryKnows : Option String → Bool)
    (s s1 : RefState) (item : ArcGisItem)
    (hload : ArcGisPortalItemReference.stratumLoad env s = .ok s1)
    (hitem : s1.arcgisItem = some item)
    (htype : item.itemType = "Map Service")
    (htiled : item.typeKeywords.contains "Tiled" = true)
    (hfmt : s1.supportedFormat.isSome = true)
    (hdefaults : s.preparedSupportedFormats
      = ArcGisPortalItemReference.preparedDefaultFormats) :
    ∃ s3 outcome fmt,
      ArcGisPortalItemReference.forceLoadReference env factoryKnows s
        = .ok (s3, outcome)
      ∧ s3.supportedFormat = some fmt
      ∧ fmt.definition.defType = some "esri-mapServer" := by
  obtain ⟨fmt0, hfmt0⟩ := Option.isSome_iff_exists.mp hfmt
  have hprep1 : s1.preparedSupportedFormats
      = ArcGisPortalItemReference.preparedDefaultFormats :=
    (stratumLoad_prepared env s s1 hload).trans hdefaults
  unfold ArcGisPortalItemReference.forceLoadReference
  rw [hload]
  dsimp only
  rw [hfmt0]
  dsimp only
  rcases hinfo : ArcGisPortalItemReference.loadAdditionalPortalInfo env s1
    with _ | info
  · rw [refineWithItemInfo_none]
    obtain ⟨fmt, happ, hdef⟩ :=
      applyTiledOverride_tiled s1 item hitem htype htiled hprep1
    rw [happ]
    dsimp only
    split <;> exact ⟨_, _, fmt, rfl, rfl, hdef⟩
  · rw [refineWithItemInfo_some info s1 item hitem]
    obtain ⟨fmt, happ, hdef⟩ :=
      applyTiledOverride_tiled
        (ArcGisPortalItemReference.setSupportedFormatFromItem
          { s1 with
            arcgisItem := some (ArcGisPortalItemReference.refinedItem info item) }
          (some (ArcGisPortalItemReference.refinedItem info item)))
        (ArcGisPortalItemReference.refinedItem info item)
        rfl ((refinedItem_itemType info item).trans htype)
        (by rw [refinedItem_typeKeywords]; exact htiled) hprep1
    rw [happ]
    dsimp only
    split <;> exact ⟨_, _, fmt, rfl, rfl, hdef⟩

/-- C3: the `/data` fetch is best-effort.  (a) When it rejects,
`loadAdditionalPortalInfo` yields `undefined` and `forceLoadReference`
completes without error on the unmodified primary item (and, short of the
tiled special case, with the format the primary metadata matched).
(b) When the response carries a non-empty layers array (and no error
member), the first layer's id is appended to the item's url and format
matching is re-run on the modified item. -/
theorem claim_c3 (env : FetchEnv) (factoryKnows : Option String → Bool)
    (s s1 : RefState) (item : ArcGisItem)
    (hload : ArcGisPortalItemReference.stratumLoad env s = .ok s1)
    (hitem : s1.arcgisItem = some item)
    (hfmt : s1.supportedFormat.isSome = true) :
    (env.dataFetch = .error () →
      ArcGisPortalItemReference.loadAdditionalPortalInfo env s1 = none
      ∧ ∃ s3 outcome,
          ArcGisPortalItemReference.forceLoadReference env factoryKnows s
            = .ok (s3, outcome)
          ∧ outcome ≠ ArcGisPortalItemReference.RefOutcome.jsTypeError
          ∧ s3.arcgisItem = some item
          ∧ (¬(item.itemType = "Map Service" ∧
                item.typeKeywords.contains "Tiled" = true) →
              s3.supportedFormat = s1.supportedFormat))
    ∧ (∀ (info : ArcGisItemInfo) (l : ArcGisItemLayerInfo)
        (ls : List ArcGisItemLayerInfo),
        env.dataFetch = .ok info → info.jsonError = false →
        info.layers = some (l :: ls) →
        ∃ s3 outcome,
          ArcGisPortalItemReference.forceLoadReference env factoryKnows s
            = .ok (s3, outcome)
          ∧ s3.arcgisItem = some { item with url := item.url ++ "/" ++ l.id }
          ∧ (¬(item.itemType = "Map Service" ∧
                item.typeKeywords.contains "Tiled" = true) →
              s3.supportedFormat
                = ArcGisPortalItemReference.isItemInSupportedFormats
                    s1.preparedSupportedFormats
                    (some { item with url := item.url ++ "/" ++ l.id }))) := by
  obtain ⟨fmt0, hfmt0⟩ := Option.isSome_iff_exists.mp hfmt
  constructor
  · intro herr
    have hnone := loadAdditionalPortalInfo_error env s1 herr
    refine ⟨hnone, ?_⟩
    unfold ArcGisPortalItemReference.forceLoadReference
    rw [hload]
    dsimp only
    rw [hfmt0]
    dsimp only
    rw [hnone, refineWithItemInfo_none]
    have hsome := applyTiledOverride_isSome s1 hfmt
    obtain ⟨fmt2, hfmt2⟩ := Option.isSome_iff_exists.mp hsome
    rw [hfmt2]
    dsimp only
    have hitem3 : (ArcGisPortalItemReference.applyTiledOverride s1).arcgisItem
        = some item := (applyTiledOverride_item s1).trans hitem
    have hkeep : ∀ (_ : ¬(item.itemType = "Map Service" ∧
        item.typeKeywords.contains "Tiled" = true)),
        (ArcGisPortalItemReference.applyTiledOverride s1).supportedFormat
          = s1.supportedFormat := by
      intro hnt
      rw [applyTiledOverride_notTiled s1 item hitem hnt]
    split
    · exact ⟨_, _, rfl, by simp, hitem3, fun hnt => (hkeep hnt).trans hfmt0⟩
    · exact ⟨_, _, rfl, by simp, hitem3, fun hnt => (hkeep hnt).trans hfmt0⟩
  · intro info l ls hok herr2 hlayers
    have hsomeinfo := loadAdditionalPortalInfo_ok env s1 item info hitem hok
    unfold ArcGisPortalItemReference.forceLoadReference
    rw [hload]
    dsimp only
    rw [hfmt0]
    dsimp only
    rw [hsomeinfo, refineWithItemInfo_some info s1 item hitem,
      refinedItem_append info item l ls herr2 hlayers]
    set item2 : ArcGisItem := { item with url := item.url ++ "/" ++ l.id }
      with hitem2
    set s2 : RefState :=
      ArcGisPortalItemReference.setSupportedFormatFromItem
        { s1 with arcgisItem := some item2 } (some item2) with hs2
    have hitem3 : (ArcGisPortalItemReference.applyTiledOverride s2).arcgisItem
        = some item2 := applyTiledOverride_item s2
    have hkeep : ∀ (_ : ¬(item.itemType = "Map Service" ∧
        item.typeKeywords.contains "Tiled" = true)),
        (ArcGisPortalItemReference.applyTiledOverride s2).supportedFormat
          = ArcGisPortalItemReference.isItemInSupportedFormats
              s1.preparedSupportedFormats (some item2) := by
      intro hnt
      rw [applyTiledOverride_notTiled s2 item2 rfl (by simpa using hnt)]
      rfl
    rcases hfmt3 : (ArcGisPortalItemReference.applyTiledOverride s2).supportedFormat
      with _ | fmt3 <;> dsimp only
    · exact ⟨_, _, rfl, hitem3, hkeep⟩
    · split
      · exact ⟨_, _, rfl, hitem3, hkeep⟩
      · exact ⟨_, _, rfl, hitem3, hkeep⟩

/-- C4: a portal item whose metadata matches no supported format rule
resolves to no target — `forceLoadReference` returns `undefined` rather
than raising — leaving the reference with the loaded item and no selected
format. -/
theorem claim_c4 (env : FetchEnv) (factoryKnows : Option String → Bool)
    (s : RefState) (item : ArcGisItem)
    (hnone : s.arcgisItem = none) (huid : s.uniqueId.isSome = true)
    (hfetch : env.itemFetch = .ok item)
    (hnomatch : ArcGisPortalItemReference.isItemInSupportedFormats
      s.preparedSupportedFormats (some item) = none) :
    ArcGisPortalItemReference.forceLoadReference env factoryKnows s
      = .ok ({ s with arcgisItem := some item, supportedFormat := none },
             ArcGisPortalItemReference.RefOutcome.noTarget) := by
  obtain ⟨uid, huid0⟩ := Option.isSome_iff_exists.mp huid
  unfold ArcGisPortalItemReference.forceLoadReference
    ArcGisPortalItemReference.stratumLoad
  rw [hnone, huid0, hfetch]
  dsimp only [ArcGisPortalItemReference.setSupportedFormatFromItem]
  rw [hnomatch]

/-- C5: the SDMX dataflow load fails with a titled error — with the fixed
`loadDataErrorTitle` title — exactly when the structure message has no
`data` member, or its `dataflows` member is not a non-empty array, or its
`dataStructures` member is not a non-empty array; in those cases no
stratum bundle is produced. -/
theorem claim_c5 (msg : SdmxJsonStructureMessage) :
    specSdmxStructureBad msg = true ↔
    ∃ e, SdmxJsonDataflowStratum.load msg = .error e ∧
      e.title = SdmxJsonDataflowStratum.loadDataErrorTitle := by
  obtain ⟨dOpt⟩ := msg
  unfold specSdmxStructureBad SdmxJsonDataflowStratum.load
  rcases dOpt with _ | d
  · exact ⟨fun _ => ⟨_, rfl, rfl⟩, fun _ => rfl⟩
  · obtain ⟨dfsOpt, dssOpt, cl, cs, cc⟩ := d
    rcases dfsOpt with _ | dfs
    · exact ⟨fun _ => ⟨_, rfl, rfl⟩, fun _ => rfl⟩
    · rcases dfs with _ | ⟨df, dfs'⟩
      · exact ⟨fun _ => ⟨_, rfl, rfl⟩, fun _ => rfl⟩
      · rcases dssOpt with _ | dss
        · exact ⟨fun _ => ⟨_, rfl, rfl⟩, fun _ => rfl⟩
        · rcases dss with _ | ⟨ds, dss'⟩
          · exact ⟨fun _ => ⟨_, rfl, rfl⟩, fun _ => rfl⟩
          · constructor
            · intro h; exact absurd h (by simp)
            · rintro ⟨e, he, -⟩
              simp at he

/-- Helper: on a non-empty option list the default-selection lines
compute exactly the claimed policy. -/
theorem selectDefault_spec (kOv cOv : Option ModelOverride)
    (o : SdmxDimensionOption) (rest : List SdmxDimensionOption) :
    SdmxJsonDataflowStratum.selectDefault kOv cOv (o :: rest)
      = .ok (specSelectedId kOv cOv (o :: rest)) := by
  have hfind : ∀ sid : String,
      (List.find? (fun x => x.id == some sid) (o :: rest)).isSome
        = (o :: rest).any (fun x => x.id == some sid) := by
    intro sid
    rw [Bool.eq_iff_iff]
    constructor
    · intro h
      exact List.any_eq_true.mpr (by simpa using List.find?_isSome.mp h)
    · intro h
      exact List.find?_isSome.mpr (by simpa using List.any_eq_true.mp h)
  unfold SdmxJsonDataflowStratum.selectDefault specSelectedId
  dsimp only
  cases hau : (jsCoalesce (kOv.bind (fun o => o.allowUndefined))
      (cOv.bind (fun o => o.allowUndefined))).getD false <;>
    rcases jsCoalesce (kOv.bind (fun o => o.selectedId))
      (cOv.bind (fun o => o.selectedId)) with _ | sid <;>
    simp [Except.map, hfind]

/-- C6: whenever the `dimensions` getter produces a dimension whose
resolved option list is non-empty, its `selectedId` follows the claimed
policy: the first option's id by default, `undefined` under an applicable
`allowUndefined` override, replaced by an override's `selectedId` only
when that id names some option — codelist-keyed overrides taking
precedence over concept-keyed ones. -/
theorem claim_c6 (d : SdmxJsonDataflow) (view : CatalogItemView)
    (dim : SdmxMetaDimension) (r : SdmxDimension)
    (h : SdmxJsonDataflowStratum.processDimension d view dim = .ok (some r))
    (hne : r.options ≠ []) :
    r.selectedId = specSelectedId
      (SdmxJsonDataflowStratum.findCodelistOverride view dim)
      (SdmxJsonDataflowStratum.findConceptOverride view dim) r.options := by
  unfold SdmxJsonDataflowStratum.processDimension at h
  rcases hopt : SdmxJsonDataflowStratum.resolvedOptions d view dim with _ | opts
  · rw [hopt] at h; simp at h
  · rw [hopt] at h
    dsimp only at h
    rcases hsel : SdmxJsonDataflowStratum.selectDefault
        (SdmxJsonDataflowStratum.findCodelistOverride view dim)
        (SdmxJsonDataflowStratum.findConceptOverride view dim) opts with e | sid
    · rw [hsel] at h; simp [Except.map] at h
    · rw [hsel] at h
      simp only [Except.map, Except.ok.injEq, Option.some.injEq] at h
      subst h
      rcases opts with _ | ⟨o, rest⟩
      · exact absurd rfl hne
      · have hx := hsel.symm.trans (selectDefault_spec
          (SdmxJsonDataflowStratum.findCodelistOverride view dim)
          (SdmxJsonDataflowStratum.findConceptOverride view dim) o rest)
        exact (Except.ok.inj hx)

/-- Witness for C6 at the concrete `CUR` dimension: the override's `USD`
is a valid option and replaces the `AUD` first-option default. -/
theorem claim_c6_witness :
    (SdmxJsonDataflowStratum.processDimension c6Dataflow c6View c6Dim
      = .ok (some c6DimResult))
    ∧ c6DimResult.options ≠ []
    ∧ c6DimResult.selectedId = specSelectedId
        (SdmxJsonDataflowStratum.findCodelistOverride c6View c6Dim)
        (SdmxJsonDataflowStratum.findConceptOverride c6View c6Dim)
        c6DimResult.options :=
  ⟨rfl, by decide,
   claim_c6 c6Dataflow c6View c6Dim c6DimResult rfl (by decide)⟩

/-- Witness for C2: resolving the tiled Map Service `c2Item` selects the
`esri-mapServer` format. -/
theorem claim_c2_witness :
    ∃ s3 outcome fmt,
      ArcGisPortalItemReference.forceLoadReference c2Env (fun _ => true) c2State
        = .ok (s3, outcome)
      ∧ s3.supportedFormat = some fmt
      ∧ fmt.definition.defType = some "esri-mapServer" :=
  claim_c2 c2Env (fun _ => true) c2State c2S1 c2Item rfl rfl rfl (by decide)
    (by decide) rfl

/-- Witness for C3: the `/data` response of `c3Item` names layer `0`, so
the resolved url gains `/0` and matching is re-run on the modified item. -/
theorem claim_c3_witness :
    ∃ s3 outcome,
      ArcGisPortalItemReference.forceLoadReference c3Env (fun _ => true) c3State
        = .ok (s3, outcome)
      ∧ s3.arcgisItem = some { c3Item with url := c3Item.url ++ "/" ++ "0" }
      ∧ (¬(c3Item.itemType = "Map Service" ∧
            c3Item.typeKeywords.contains "Tiled" = true) →
          s3.supportedFormat
            = ArcGisPortalItemReference.isItemInSupportedFormats
                c3S1.preparedSupportedFormats
                (some { c3Item with url := c3Item.url ++ "/" ++ "0" })) :=
  (claim_c3 c3Env (fun _ => true) c3State c3S1 c3Item rfl rfl (by decide)).2
    { layers := some [{ id := "0" }], jsonError := false } { id := "0" } []
    rfl rfl rfl

/-- Witness for C4: the unmatched `c4Item` resolves to no target. -/
theorem claim_c4_witness :
    ArcGisPortalItemReference.forceLoadReference c4Env (fun _ => true) c4State
      = .ok ({ c4State with arcgisItem := some c4Item, supportedFormat := none },
             ArcGisPortalItemReference.RefOutcome.noTarget) :=
  claim_c4 c4Env (fun _ => true) c4State c4Item rfl rfl rfl (by decide)

/-- C7: the unit string composition.  A `unit-measure` override whose
column has a number of unique values other than one contributes nothing;
with a single unique value it contributes that value, resolved to the
codelist code's label when such a code exists; and the selected frequency
option's label is appended in parentheses after the comma-joined
contributions. -/
theorem claim_c7 :
    (∀ (d : SdmxJsonDataflow) (view : CatalogItemView) (ov : ModelOverride)
      (oid : String) (col : ColumnView),
      ov.id = some oid →
      SdmxJsonDataflowStratum.overrideColumn d view oid = some col →
      col.uniqueValues.length ≠ 1 →
      SdmxJsonDataflowStratum.unitMeasureContribution d view ov = none)
    ∧ (∀ (d : SdmxJsonDataflow) (view : CatalogItemView) (ov : ModelOverride)
      (oid : String) (col : ColumnView) (v : String),
      ov.id = some oid →
      SdmxJsonDataflowStratum.overrideColumn d view oid = some col →
      col.uniqueValues = [v] →
      SdmxJsonDataflowStratum.overrideCodelist d oid = none →
      SdmxJsonDataflowStratum.unitMeasureContribution d view ov = some v)
    ∧ (∀ (d : SdmxJsonDataflow) (view : CatalogItemView) (ov : ModelOverride)
      (oid : String) (col : ColumnView) (v : String) (c : Code) (n : String),
      ov.id = some oid →
      SdmxJsonDataflowStratum.overrideColumn d view oid = some col →
      col.uniqueValues = [v] →
      ((SdmxJsonDataflowStratum.overrideCodelist d oid).bind
          (fun cd => cd.codes)).bind
        (List.find? (fun cd => cd.id == some v)) = some c →
      c.name = some n →
      SdmxJsonDataflowStratum.unitMeasureContribution d view ov = some n)
    ∧ (∀ (d : SdmxJsonDataflow) (view : CatalogItemView) (fd : SdmxDimension)
      (n : String),
      (SdmxJsonDataflowStratum.getDimensionsWithOverrideType d view
        "frequency").find? (fun dm => dm.selectedId.isSome) = some fd →
      (fd.options.find? (fun o => o.id == fd.selectedId)).bind (fun o => o.name)
        = some n →
      n ≠ "" →
      SdmxJsonDataflowStratum.unitMeasure d view
        = String.intercalate ", "
            ((view.modelOverrides.filter (fun o =>
              o.overrideType == some "unit-measure" && jsTruthy o.id)).filterMap
              (SdmxJsonDataflowStratum.unitMeasureContribution d view))
          ++ " (" ++ n ++ ")") := by
  refine ⟨?_, ?_, ?_, ?_⟩
  · intro d view ov oid col hid hcol hlen
    unfold SdmxJsonDataflowStratum.unitMeasureContribution
    rw [hid]
    dsimp only
    rw [hcol]
    dsimp only
    rcases hu : col.uniqueValues with _ | ⟨v, rest⟩
    · rfl
    · rcases rest with _ | ⟨w, rest'⟩
      · exact absurd (by rw [hu]; rfl) hlen
      · rfl
  · intro d view ov oid col v hid hcol huniq hcl
    unfold SdmxJsonDataflowStratum.unitMeasureContribution
    rw [hid]
    dsimp only
    rw [hcol]
    dsimp only
    rw [huniq]
    dsimp only
    rw [hcl]
    rfl
  · intro d view ov oid col v c n hid hcol huniq hchain hname
    unfold SdmxJsonDataflowStratum.unitMeasureContribution
    rw [hid]
    dsimp only
    rw [hcol]
    dsimp only
    rw [huniq]
    dsimp only
    rw [hchain]
    dsimp only [Option.bind]
    rw [hname]
    rfl
  · intro d view fd n hfreq hopt hn
    unfold SdmxJsonDataflowStratum.unitMeasure
    rw [hfreq]
    simp only [Option.some_bind, Option.map_some']
    rw [hopt]
    simp only [jsCoalesce, jsTruthy]
    rw [if_pos (by simpa using hn)]
    simp [String.append_assoc]

/-- Witness for C7: over the concrete bundles, the two-valued `MEASURE`
column contributes nothing, the single-valued `CURRENCY` column
contributes `AUD` (its codelist label where one exists), and the selected
`Quarterly` frequency is appended in parentheses. -/
theorem claim_c7_witness :
    SdmxJsonDataflowStratum.unitMeasureContribution c7Dataflow c7View
      { id := some c7MeasureUrn, overrideType := some "unit-measure" } = none
    ∧ SdmxJsonDataflowStratum.unitMeasureContribution c7Dataflow c7View
      { id := some c7CurrencyUrn, overrideType := some "unit-measure" }
      = some "AUD"
    ∧ SdmxJsonDataflowStratum.unitMeasureContribution c7bDataflow c7bView
      { id := some c7CurrencyUrn, overrideType := some "unit-measure" }
      = some "Australian Dollar"
    ∧ SdmxJsonDataflowStratum.unitMeasure c7Dataflow c7View
      = String.intercalate ", "
          ((c7View.modelOverrides.filter (fun o =>
            o.overrideType == some "unit-measure" && jsTruthy o.id)).filterMap
            (SdmxJsonDataflowStratum.unitMeasureContribution c7Dataflow c7View))
        ++ " (" ++ "Quarterly" ++ ")" :=
  ⟨claim_c7.1 c7Dataflow c7View
      { id := some c7MeasureUrn, overrideType := some "unit-measure" }
      c7MeasureUrn { uniqueValues := ["AUD", "USD"] } rfl rfl (by decide),
   claim_c7.2.1 c7Dataflow c7View
      { id := some c7CurrencyUrn, overrideType := some "unit-measure" }
      c7CurrencyUrn { uniqueValues := ["AUD"] } "AUD" rfl rfl rfl rfl,
   claim_c7.2.2.1 c7bDataflow c7bView
      { id := some c7CurrencyUrn, overrideType := some "unit-measure" }
      c7CurrencyUrn { uniqueValues := ["AUD"] } "AUD"
      { id := some "AUD", name := some "Australian Dollar" }
      "Australian Dollar" rfl rfl rfl rfl rfl,
   claim_c7.2.2.2 c7Dataflow c7View
      { id := "FREQ", options := [{ id := some "Q", name := some "Quarterly" }],
        selectedId := some "Q" }
      "Quarterly" rfl rfl (by decide)⟩

/-- Counterexample to C8 as stated: under `c8View` the `STE` dimension is
disabled by its codelist override, so its column is `hidden` even though
the claimed inference chain resolves the region type `STE` (the dimension
id matches the region provider). -/
theorem claim_c8_counterexample :
    SdmxJsonDataflowStratum.dimensionColumns c8Dataflow c8View
      = .ok [{ name := some "STE", columnType := some "hidden" }]
    ∧ specC8RegionType c8Dataflow c8View c8Dim = some "STE" :=
  ⟨rfl, rfl⟩

/-- C8 (amended): for a non-time dimension that is not disabled by an
override, the column's region type is resolved by the claimed chain —
explicit override regionType (codelist before concept), delegation to a
`region-type`-tagged dimension (only under an override of type `region`),
dimension id, codelist name, codelist id, concept name, concept id — with
the `regionTypeReplacements` alias applied only under an override of type
`region`, and the column type is `region` exactly when a region type was
resolved, `hidden` otherwise. -/
theorem claim_c8_amended (d : SdmxJsonDataflow) (view : CatalogItemView)
    (dim : SdmxMetaDimension) (sd : Option (List SdmxDimension))
    (hdims : SdmxJsonDataflowStratum.dimensions d view = .ok sd)
    (hnotdis : (((sd.getD []).find? (fun x => some x.id == dim.id)).bind
      (fun x => x.disable)).getD false = false) :
    SdmxJsonDataflowStratum.dimensionColumnFor d view dim
      = .ok { name := dim.id,
              title := (SdmxJsonDataflowStratum.getConceptByUrn d
                dim.conceptIdentity).bind (fun c => c.name),
              columnType := if (amendedC8RegionType d view dim).isSome
                then some "region" else some "hidden",
              regionType := amendedC8RegionType d view dim } := by
  unfold SdmxJsonDataflowStratum.dimensionColumnFor
  rw [hdims]
  dsimp only
  rw [hnotdis]
  rfl

/-- Witness for the amended C8 at the non-disabled `STE` dimension: the
chain resolves `STE` through the dimension id and the column is typed
`region`. -/
theorem claim_c8_amended_witness :
    SdmxJsonDataflowStratum.dimensionColumnFor c8Dataflow c8ViewB c8Dim
      = .ok { name := some "STE",
              title := (SdmxJsonDataflowStratum.getConceptByUrn c8Dataflow
                c8Dim.conceptIdentity).bind (fun c => c.name),
              columnType := if (amendedC8RegionType c8Dataflow c8ViewB c8Dim).isSome
                then some "region" else some "hidden",
              regionType := amendedC8RegionType c8Dataflow c8ViewB c8Dim } :=
  claim_c8_amended c8Dataflow c8ViewB c8Dim (some [c8DimResultB]) rfl (by decide)

/-- C9: duplicating a loaded stratum onto a new model preserves every
trait value the stratum defines.  The portal-item and image-server
duplicates copy the captured data (their getters never read the model
backreference); the SDMX duplicate rebinds the catalog item, so its trait
values coincide whenever the new model presents the same resolved view;
and under the spec-modelled Stratum Order resolution, a model holding the
duplicated (hence equal) stratum under the same name — its other strata
unchanged — resolves every trait to the original model's value. -/
theorem claim_c9 :
    (∀ (γ μ : Type) (ext : ExternalCollab) (s : ArcGisPortalItemStratumData γ)
      (newModel : μ),
      arcGisPortalItemStratumTraits ext (s.duplicateLoadableStratum newModel)
        = arcGisPortalItemStratumTraits ext s)
    ∧ (∀ (μ : Type) (ext : ExternalCollab) (s : ImageServerStratumData μ)
      (newModel : μ),
      imageServerStratumTraits ext (s.duplicateLoadableStratum newModel)
        = imageServerStratumTraits ext s)
    ∧ (∀ (s : SdmxStratumData) (newModel : CatalogItemView),
      newModel = s.catalogItem →
      sdmxStratumTraits (s.duplicateLoadableStratum newModel)
        = sdmxStratumTraits s)
    ∧ (∀ (V : Type) (order : List String)
      (strata newStrata : String → Option (String → Option V))
      (n : String) (sm : String → Option V),
      strata n = some sm →
      (∀ n', n' ≠ n → newStrata n' = strata n') →
      ∀ t, resolveTrait order (setStratum newStrata n sm) t
        = resolveTrait order strata t) := by
  refine ⟨?_, ?_, ?_, ?_⟩
  · intro γ μ ext s newModel
    rfl
  · intro μ ext s newModel
    rfl
  · intro s newModel h
    subst h
    rfl
  · intro V order strata newStrata n sm hn hother
    induction order with
    | nil => intro t; rfl
    | cons m rest ih =>
      intro t
      unfold resolveTrait
      by_cases hm : m = n
      · subst hm
        rw [show setStratum newStrata m sm m = some sm from if_pos rfl, hn]
        dsimp only
        cases sm t <;> simp [jsCoalesce, ih]
      · rw [show setStratum newStrata n sm m = newStrata m from if_neg hm,
          hother m hm]
        cases strata m with
        | none => exact ih t
        | some smm => cases smm t <;> simp [jsCoalesce, ih]

/-- Witness for C9 at concrete strata, an identity-style collaborator
record, and a two-name stratum order. -/
theorem claim_c9_witness :
    (arcGisPortalItemStratumTraits w9Ext
        (w9ArcStratum.duplicateLoadableStratum (0 : Nat))
      = arcGisPortalItemStratumTraits w9Ext w9ArcStratum)
    ∧ (imageServerStratumTraits w9Ext (w9ImgStratum.duplicateLoadableStratum 2)
      = imageServerStratumTraits w9Ext w9ImgStratum)
    ∧ (sdmxStratumTraits
        (w9SdmxStratum.duplicateLoadableStratum w9SdmxStratum.catalogItem)
      = sdmxStratumTraits w9SdmxStratum)
    ∧ (∀ t, resolveTrait ["user", "load"] (setStratum w9Strata "load" w9SM) t
        = resolveTrait ["user", "load"] w9Strata t) :=
  ⟨claim_c9.1 Unit Nat w9Ext w9ArcStratum 0,
   claim_c9.2.1 Nat w9Ext w9ImgStratum 2,
   claim_c9.2.2.1 w9SdmxStratum w9SdmxStratum.catalogItem rfl,
   claim_c9.2.2.2 Nat ["user", "load"] w9Strata w9Strata "load" w9SM rfl
     (fun _ _ => rfl)⟩

/-- C10: a successfully fetched ArcGIS service whose capabilities string
does not include `"Image"` is rejected by `ImageServerStratum.load` with
the titled invalid-service error, so no stratum is produced. -/
theorem claim_c10 (env : ImageServerEnv) (m : ImageServer)
    (huri : env.uriDefined = true)
    (hmeta : env.serviceMetadata = some m)
    (hcap : capabilitiesIncludesImage m = false) :
    ImageServerStratum.load env
      = .error
          { title := "models.arcGisImageServerCatalogItem.invalidServiceTitle",
            message := "models.arcGisImageServerCatalogItem.invalidServiceMessage" } := by
  unfold ImageServerStratum.load
  rw [huri, hmeta]
  dsimp only
  rw [hcap]
  rfl

/-- Witness for C10: a `Catalog,Mensuration` service is rejected. -/
theorem claim_c10_witness :
    ImageServerStratum.load c10Env
      = .error
          { title := "models.arcGisImageServerCatalogItem.invalidServiceTitle",
            message := "models.arcGisImageServerCatalogItem.invalidServiceMessage" } :=
  claim_c10 c10Env c10Metadata rfl rfl (by decide)

/-- Counterexample to C3 as stated: when the `/data` response carries an
error member alongside a non-empty layers array, the source skips the
append (`!itemDataInfo.error && itemDataInfo.layers`), so the item's url
stays unmodified even though the response contains a non-empty layers
array. -/
theorem claim_c3_counterexample :
    c3EnvBad.dataFetch
      = .ok { layers := some [{ id := "0" }], jsonError := true }
    ∧ (ArcGisPortalItemReference.forceLoadReference c3EnvBad (fun _ => true)
        c3State).map (fun r => r.1.arcgisItem.map (fun i => i.url))
      = .ok (some c3Item.url)
    ∧ c3Item.url ≠ c3Item.url ++ "/" ++ "0" :=
  ⟨rfl, rfl, by decide⟩
